import Mathlib

/-!
Verification of the exif-io typed tag registry and value model.

The development shallowly embeds the three source files of the crate:
`src/types.rs` (primitive Exif value types), `src/tag/image.rs` (the Image
IFD0 tag registry, a 256-variant enum), and `src/tag.rs` (the `Tag` façade),
together with the semantics of the external `fraction` crate's
`GenericFraction`, which is the type behind the `Rational`/`SRational`
aliases, and a spec-modelled decoder/encoder for the registry (the crate
itself contains no decode/encode yet).

Machine integers are modelled as `Fin (2 ^ w)` bit patterns; `f32`/`f64` as
IEEE-754 binary32/binary64 bit patterns with the IEEE comparison used by the
derived `PartialEq` instances.
-/

namespace Exif

/-! ### Primitive value types (`src/types.rs`) -/

/-- An 8-bit unsigned integer: `pub type Byte = u8` (src/types.rs:7). -/
abbrev Byte := Fin (2 ^ 8)

/-- A 16-bit signed integer in two's complement notation, modelled by its
16-bit pattern: `pub type SShort = i16` (src/types.rs:10). -/
abbrev SShort := Fin (2 ^ 16)

/-- A 16-bit unsigned integer: `pub type Short = u16` (src/types.rs:13). -/
abbrev Short := Fin (2 ^ 16)

/-- A 32-bit signed integer in two's complement notation, modelled by its
32-bit pattern: `pub type SLong = i32` (src/types.rs:16). -/
abbrev SLong := Fin (2 ^ 32)

/-- A 32-bit unsigned integer: `pub type Long = u32` (src/types.rs:19). -/
abbrev Long := Fin (2 ^ 32)

/-- The integer a two's-complement 16-bit pattern denotes. -/
def SShort.toInt (s : SShort) : Int :=
  if s.val < 2 ^ 15 then (s.val : Int) else (s.val : Int) - 2 ^ 16

/-- The integer a two's-complement 32-bit pattern denotes. -/
def SLong.toInt (s : SLong) : Int :=
  if s.val < 2 ^ 31 then (s.val : Int) else (s.val : Int) - 2 ^ 32

/-- A 32-bit floating-point number, `pub type Float = f32` (src/types.rs:32),
modelled as an IEEE-754 binary32 bit pattern. -/
abbrev Float := Fin (2 ^ 32)

/-- A 64-bit floating-point number, `pub type Double = f64` (src/types.rs:35),
modelled as an IEEE-754 binary64 bit pattern. -/
abbrev Double := Fin (2 ^ 64)

/-- A binary32 pattern is a NaN: exponent bits all ones, mantissa nonzero. -/
def Float.isNaN (a : Float) : Bool :=
  (a.val / 2 ^ 23) % 2 ^ 8 == 255 && a.val % 2 ^ 23 != 0

/-- A binary32 pattern is a (positive or negative) zero. -/
def Float.isZero (a : Float) : Bool :=
  a.val % 2 ^ 31 == 0

/-- IEEE-754 equality on binary32 patterns, the comparison `f32::eq` performs:
NaN is unequal to everything, `+0.0 == -0.0`, all other values compare by
bit pattern. -/
def Float.beq (a b : Float) : Bool :=
  if Float.isNaN a || Float.isNaN b then false
  else if Float.isZero a && Float.isZero b then true
  else a == b

/-- A binary64 pattern is a NaN: exponent bits all ones, mantissa nonzero. -/
def Double.isNaN (a : Double) : Bool :=
  (a.val / 2 ^ 52) % 2 ^ 11 == 2047 && a.val % 2 ^ 52 != 0

/-- A binary64 pattern is a (positive or negative) zero. -/
def Double.isZero (a : Double) : Bool :=
  a.val % 2 ^ 63 == 0

/-- IEEE-754 equality on binary64 patterns, the comparison `f64::eq` performs. -/
def Double.beq (a b : Double) : Bool :=
  if Double.isNaN a || Double.isNaN b then false
  else if Double.isZero a && Double.isZero b then true
  else a == b

/-- Text whose on-wire form is NUL-terminated 7-bit ASCII:
`pub type Ascii = String` (src/types.rs:40). The in-memory type is a plain
string; neither the 7-bit restriction nor the terminator is part of it. -/
abbrev Ascii := String

/-- Text whose on-wire form is NUL-terminated UTF-8:
`pub type UTF8 = String` (src/types.rs:49). -/
abbrev UTF8 := String

/-- An ASCII comment string: `pub type Comment = Ascii` (src/types.rs:52). -/
abbrev Comment := Ascii

/-- Field-specific opaque bytes: `pub type Undefined = Vec<Byte>` (src/types.rs:55). -/
abbrev Undefined := List Byte

/-! ### The `fraction` crate's `GenericFraction`

`src/types.rs` defines `Rational = GenericFraction<Long>` and
`SRational = GenericFraction<SLong>`.  `GenericFraction<T>` (crate
`fraction`) is a sum of a signed reduced ratio, a signed infinity and NaN;
`GenericFraction::new` sends a zero denominator to the Infinity sentinel
(NaN for `0/0`) and otherwise stores the pair reduced by its gcd with the
overall sign split off into the `Sign`. -/

/-- `fraction::Sign`, the sign carried by `GenericFraction`. -/
inductive Sign where
  | plus
  | minus
deriving DecidableEq

/-- `num::rational::Ratio` as used by the `fraction` crate: numerator and
denominator magnitudes, kept in reduced form by `Ratio::new`. -/
structure Ratio where
  numer : Nat
  denom : Nat
deriving DecidableEq

/-- `Ratio::new`: stores the fraction reduced by the gcd of its parts
(only called with a nonzero denominator). -/
def Ratio.new (n d : Nat) : Ratio :=
  ⟨n / Nat.gcd n d, d / Nat.gcd n d⟩

/-- `fraction::GenericFraction`: a signed reduced ratio, a signed infinity,
or NaN. -/
inductive GenericFraction where
  | rational (sign : Sign) (ratio : Ratio)
  | infinity (sign : Sign)
  | nan
deriving DecidableEq

/-- `pub type Rational = GenericFraction<Long>` (src/types.rs:29). -/
abbrev Rational := GenericFraction

/-- `pub type SRational = GenericFraction<SLong>` (src/types.rs:24). -/
abbrev SRational := GenericFraction

/-- `GenericFraction::new` at the unsigned instantiation `Rational`:
`0/0` is NaN, `n/0` with `n ≠ 0` is positive infinity, everything else a
reduced positive ratio. -/
def Rational.new (n d : Nat) : Rational :=
  if d = 0 then
    if n = 0 then GenericFraction.nan else GenericFraction.infinity Sign.plus
  else
    GenericFraction.rational Sign.plus (Ratio.new n d)

/-- `GenericFraction::new` at the signed instantiation `SRational`: the
overall sign is split off and the magnitudes stored reduced; a zero
denominator gives NaN (for `0/0`) or an infinity signed like the numerator. -/
def SRational.new (n d : Int) : SRational :=
  if d = 0 then
    if n = 0 then GenericFraction.nan
    else GenericFraction.infinity (if n < 0 then Sign.minus else Sign.plus)
  else
    GenericFraction.rational
      (if (n < 0) = (d < 0) then Sign.plus else Sign.minus)
      (Ratio.new n.natAbs d.natAbs)

/-- `GenericFraction::numer`: the numerator of a rational value, nothing for
the NaN/Infinity sentinels. -/
def GenericFraction.numer : GenericFraction → Option Nat
  | .rational _ r => some r.numer
  | _ => none

/-- `GenericFraction::denom`: the denominator of a rational value, nothing
for the NaN/Infinity sentinels. -/
def GenericFraction.denom : GenericFraction → Option Nat
  | .rational _ r => some r.denom
  | _ => none

/-- `PartialEq::eq` for `GenericFraction` (crate `fraction`): NaN equals NaN,
infinities compare by sign, rationals compare by sign and reduced ratio
except that zero equals zero regardless of sign. -/
def GenericFraction.beq : GenericFraction → GenericFraction → Bool
  | .nan, .nan => true
  | .infinity s, .infinity t => s == t
  | .rational s r, .rational t q =>
      if r.numer == 0 && q.numer == 0 then true
      else s == t && r == q
  | _, _ => false

/-! ### Primitive payload kinds -/

/-- The declared primitive payload kinds occurring in the `Image` registry. -/
inductive PrimType where
  | ascii
  | byte
  | double
  | float
  | long
  | rational
  | srational
  | sshort
  | short
  | undefined
deriving DecidableEq

/-- A primitive payload value, one alternative per payload kind. -/
inductive PrimValue where
  | ascii (v : Ascii)
  | byte (v : Byte)
  | double (v : Double)
  | float (v : Float)
  | long (v : Long)
  | rational (v : Rational)
  | srational (v : SRational)
  | sshort (v : SShort)
  | short (v : Short)
  | undefined (v : Undefined)

/-- Payload equality as the derived `PartialEq` instances compare payloads:
each payload kind uses its own equality (IEEE comparison for floats, the
`fraction` crate's comparison for rationals, structural equality for the
integer, string and byte-vector payloads). -/
def PrimValue.beq : PrimValue → PrimValue → Bool
  | .ascii a, .ascii b => a == b
  | .byte a, .byte b => a == b
  | .double a, .double b => Double.beq a b
  | .float a, .float b => Float.beq a b
  | .long a, .long b => a == b
  | .rational a, .rational b => GenericFraction.beq a b
  | .srational a, .srational b => GenericFraction.beq a b
  | .sshort a, .sshort b => a == b
  | .short a, .short b => a == b
  | .undefined a, .undefined b => a == b
  | _, _ => false

/-! ### The Image IFD0 tag registry (`src/tag/image.rs`)

One constructor per variant of the Rust `Image` enum, in source order,
each carrying its declared primitive payload type; the `#[repr(u16)]`
discriminants are recorded by `Image.code`. -/

set_option maxHeartbeats 1600000

set_option maxRecDepth 100000

/-- Exif Image IFD0 tags (`pub enum Image`, src/tag/image.rs:10). -/
inductive Image where
  | ProcessingSoftware (v : Ascii)
  | NewSubfileType (v : Long)
  | SubfileType (v : Short)
  | ImageWidth (v : Long)
  | ImageLength (v : Long)
  | BitsPerSample (v : Short)
  | Compression (v : Short)
  | PhotometricInterpretation (v : Short)
  | Thresholding (v : Short)
  | CellWidth (v : Short)
  | CellLength (v : Short)
  | FillOrder (v : Short)
  | DocumentName (v : Ascii)
  | ImageDescription (v : Ascii)
  | Make (v : Ascii)
  | Model (v : Ascii)
  | StripOffsets (v : Long)
  | Orientation (v : Short)
  | SamplesPerPixel (v : Short)
  | RowsPerStrip (v : Long)
  | StripByteCounts (v : Long)
  | XResolution (v : Rational)
  | YResolution (v : Rational)
  | PlanarConfiguration (v : Short)
  | PageName (v : Ascii)
  | XPosition (v : Rational)
  | YPosition (v : Rational)
  | GrayResponseUnit (v : Short)
  | GrayResponseCurve (v : Short)
  | T4Options (v : Long)
  | T6Options (v : Long)
  | ResolutionUnit (v : Short)
  | PageNumber (v : Short)
  | TransferFunction (v : Short)
  | Software (v : Ascii)
  | DateTime (v : Ascii)
  | Artist (v : Ascii)
  | HostComputer (v : Ascii)
  | Predictor (v : Short)
  | WhitePoint (v : Rational)
  | PrimaryChromaticities (v : Rational)
  | ColorMap (v : Short)
  | HalftoneHints (v : Short)
  | TileWidth (v : Long)
  | TileLength (v : Long)
  | TileOffsets (v : Short)
  | TileByteCounts (v : Long)
  | SubIFDs (v : Long)
  | InkSet (v : Short)
  | InkNames (v : Ascii)
  | NumberOfInks (v : Short)
  | DotRange (v : Byte)
  | TargetPrinter (v : Ascii)
  | ExtraSamples (v : Short)
  | SampleFormat (v : Short)
  | SMinSampleValue (v : Short)
  | SMaxSampleValue (v : Short)
  | TransferRange (v : Short)
  | ClipPath (v : Byte)
  | XClipPathUnits (v : SShort)
  | YClipPathUnits (v : SShort)
  | Indexed (v : Short)
  | JPEGTables (v : Undefined)
  | OPIProxy (v : Short)
  | JPEGProc (v : Long)
  | JPEGInterchangeFormat (v : Long)
  | JPEGInterchangeFormatLength (v : Long)
  | JPEGRestartInterval (v : Short)
  | JPEGLosslessPredictors (v : Short)
  | JPEGPointTransforms (v : Short)
  | JPEGQTables (v : Long)
  | JPEGDCTables (v : Long)
  | JPEGACTables (v : Long)
  | YCbCrCoefficients (v : Rational)
  | YCbCrSubSampling (v : Short)
  | YCbCrPositioning (v : Short)
  | ReferenceBlackWhite (v : Rational)
  | XMLPacket (v : Byte)
  | Rating (v : Short)
  | RatingPercent (v : Short)
  | VignettingCorrParams (v : SShort)
  | ChromaticAberrationCorrParams (v : SShort)
  | DistortionCorrParams (v : SShort)
  | ImageID (v : Ascii)
  | CFARepeatPatternDim (v : Short)
  | CFAPattern (v : Byte)
  | BatteryLevel (v : Rational)
  | Copyright (v : Ascii)
  | ExposureTime (v : Rational)
  | FNumber (v : Rational)
  | IPTCNAA (v : Long)
  | ImageResources (v : Byte)
  | ExifTag (v : Long)
  | InterColorProfile (v : Undefined)
  | ExposureProgram (v : Short)
  | SpectralSensitivity (v : Ascii)
  | GPSTag (v : Long)
  | ISOSpeedRatings (v : Short)
  | OECF (v : Undefined)
  | Interlace (v : Short)
  | TimeZoneOffset (v : SShort)
  | SelfTimerMode (v : Short)
  | DateTimeOriginal (v : Ascii)
  | CompressedBitsPerPixel (v : Rational)
  | ShutterSpeedValue (v : SRational)
  | ApertureValue (v : Rational)
  | BrightnessValue (v : SRational)
  | ExposureBiasValue (v : SRational)
  | MaxApertureValue (v : Rational)
  | SubjectDistance (v : SRational)
  | MeteringMode (v : Short)
  | LightSource (v : Short)
  | Flash (v : Short)
  | FocalLength (v : Rational)
  | FlashEnergy (v : Rational)
  | SpatialFrequencyResponse (v : Undefined)
  | Noise (v : Undefined)
  | FocalPlaneXResolution (v : Rational)
  | FocalPlaneYResolution (v : Rational)
  | FocalPlaneResolutionUnit (v : Short)
  | ImageNumber (v : Long)
  | SecurityClassification (v : Ascii)
  | ImageHistory (v : Ascii)
  | SubjectLocation (v : Short)
  | ExposureIndex (v : Rational)
  | TIFFEPStandardID (v : Byte)
  | SensingMethod (v : Short)
  | XPTitle (v : Byte)
  | XPComment (v : Byte)
  | XPAuthor (v : Byte)
  | XPKeywords (v : Byte)
  | XPSubject (v : Byte)
  | PrintImageMatching (v : Undefined)
  | DNGVersion (v : Byte)
  | DNGBackwardVersion (v : Byte)
  | UniqueCameraModel (v : Ascii)
  | LocalizedCameraModel (v : Byte)
  | CFAPlaneColor (v : Byte)
  | CFALayout (v : Short)
  | LinearizationTable (v : Short)
  | BlackLevelRepeatDim (v : Short)
  | BlackLevel (v : Rational)
  | BlackLevelDeltaH (v : SRational)
  | BlackLevelDeltaV (v : SRational)
  | WhiteLevel (v : Long)
  | DefaultScale (v : Rational)
  | DefaultCropOrigin (v : Long)
  | DefaultCropSize (v : Long)
  | ColorMatrix1 (v : SRational)
  | ColorMatrix2 (v : SRational)
  | CameraCalibration1 (v : SRational)
  | CameraCalibration2 (v : SRational)
  | ReductionMatrix1 (v : SRational)
  | ReductionMatrix2 (v : SRational)
  | AnalogBalance (v : Rational)
  | AsShotNeutral (v : Short)
  | AsShotWhiteXY (v : Rational)
  | BaselineExposure (v : SRational)
  | BaselineNoise (v : Rational)
  | BaselineSharpness (v : Rational)
  | BayerGreenSplit (v : Long)
  | LinearResponseLimit (v : Rational)
  | CameraSerialNumber (v : Ascii)
  | LensInfo (v : Rational)
  | ChromaBlurRadius (v : Rational)
  | AntiAliasStrength (v : Rational)
  | ShadowScale (v : SRational)
  | DNGPrivateData (v : Byte)
  | MakerNoteSafety (v : Short)
  | CalibrationIlluminant1 (v : Short)
  | CalibrationIlluminant2 (v : Short)
  | BestQualityScale (v : Rational)
  | RawDataUniqueID (v : Byte)
  | OriginalRawFileName (v : Byte)
  | OriginalRawFileData (v : Undefined)
  | ActiveArea (v : Long)
  | MaskedAreas (v : Long)
  | AsShotICCProfile (v : Undefined)
  | AsShotPreProfileMatrix (v : SRational)
  | CurrentICCProfile (v : Undefined)
  | CurrentPreProfileMatrix (v : SRational)
  | ColorimetricReference (v : Short)
  | CameraCalibrationSignature (v : Byte)
  | ProfileCalibrationSignature (v : Byte)
  | ExtraCameraProfiles (v : Long)
  | AsShotProfileName (v : Byte)
  | NoiseReductionApplied (v : Rational)
  | ProfileName (v : Byte)
  | ProfileHueSatMapDims (v : Long)
  | ProfileHueSatMapData1 (v : Float)
  | ProfileHueSatMapData2 (v : Float)
  | ProfileToneCurve (v : Float)
  | ProfileEmbedPolicy (v : Long)
  | ProfileCopyright (v : Byte)
  | ForwardMatrix1 (v : SRational)
  | ForwardMatrix2 (v : SRational)
  | PreviewApplicationName (v : Byte)
  | PreviewApplicationVersion (v : Byte)
  | PreviewSettingsName (v : Byte)
  | PreviewSettingsDigest (v : Byte)
  | PreviewColorSpace (v : Long)
  | PreviewDateTime (v : Ascii)
  | RawImageDigest (v : Undefined)
  | OriginalRawFileDigest (v : Undefined)
  | SubTileBlockSize (v : Long)
  | RowInterleaveFactor (v : Long)
  | ProfileLookTableDims (v : Long)
  | ProfileLookTableData (v : Float)
  | OpcodeList1 (v : Undefined)
  | OpcodeList2 (v : Undefined)
  | OpcodeList3 (v : Undefined)
  | NoiseProfile (v : Double)
  | TimeCodes (v : Byte)
  | FrameRate (v : SRational)
  | TStop (v : SRational)
  | ReelName (v : Ascii)
  | CameraLabel (v : Ascii)
  | OriginalDefaultFinalSize (v : Long)
  | OriginalBestQualityFinalSize (v : Long)
  | OriginalDefaultCropSize (v : Long)
  | ProfileHueSatMapEncoding (v : Long)
  | ProfileLookTableEncoding (v : Long)
  | BaselineExposureOffset (v : SRational)
  | DefaultBlackRender (v : Long)
  | NewRawImageDigest (v : Byte)
  | RawToPreviewGain (v : Double)
  | DefaultUserCrop (v : Rational)
  | DepthFormat (v : Short)
  | DepthNear (v : Rational)
  | DepthFar (v : Rational)
  | DepthUnits (v : Short)
  | DepthMeasureType (v : Short)
  | EnhanceParams (v : Ascii)
  | ProfileGainTableMap (v : Undefined)
  | SemanticName (v : Ascii)
  | SemanticInstanceID (v : Ascii)
  | CalibrationIlluminant3 (v : Short)
  | CameraCalibration3 (v : SRational)
  | ColorMatrix3 (v : SRational)
  | ForwardMatrix3 (v : SRational)
  | IlluminantData1 (v : Undefined)
  | IlluminantData2 (v : Undefined)
  | IlluminantData3 (v : Undefined)
  | MaskSubArea (v : Long)
  | ProfileHueSatMapData3 (v : Float)
  | ReductionMatrix3 (v : SRational)
  | RGBTables (v : Undefined)
  | ProfileGainTableMap2 (v : Undefined)
  | ColumnInterleaveFactor (v : Long)
  | ImageSequenceInfo (v : Undefined)
  | ImageStats (v : Undefined)
  | ProfileDynamicRange (v : Undefined)
  | ProfileGroupName (v : Ascii)
  | JXLDistance (v : Float)
  | JXLEffort (v : Long)
  | JXLDecodeSpeed (v : Long)

/-- The `#[repr(u16)]` discriminant (the 16-bit tag code) of each variant. -/
def Image.code : Image → Nat
  | .ProcessingSoftware _ => 0x000B
  | .NewSubfileType _ => 0x00FE
  | .SubfileType _ => 0x00FF
  | .ImageWidth _ => 0x0100
  | .ImageLength _ => 0x0101
  | .BitsPerSample _ => 0x0102
  | .Compression _ => 0x0103
  | .PhotometricInterpretation _ => 0x0106
  | .Thresholding _ => 0x0107
  | .CellWidth _ => 0x0108
  | .CellLength _ => 0x0109
  | .FillOrder _ => 0x010A
  | .DocumentName _ => 0x010D
  | .ImageDescription _ => 0x010E
  | .Make _ => 0x010F
  | .Model _ => 0x0110
  | .StripOffsets _ => 0x0111
  | .Orientation _ => 0x0112
  | .SamplesPerPixel _ => 0x0115
  | .RowsPerStrip _ => 0x0116
  | .StripByteCounts _ => 0x0117
  | .XResolution _ => 0x011A
  | .YResolution _ => 0x011B
  | .PlanarConfiguration _ => 0x011C
  | .PageName _ => 0x011D
  | .XPosition _ => 0x011E
  | .YPosition _ => 0x011F
  | .GrayResponseUnit _ => 0x0122
  | .GrayResponseCurve _ => 0x0123
  | .T4Options _ => 0x0124
  | .T6Options _ => 0x0125
  | .ResolutionUnit _ => 0x0128
  | .PageNumber _ => 0x0129
  | .TransferFunction _ => 0x012D
  | .Software _ => 0x0131
  | .DateTime _ => 0x0132
  | .Artist _ => 0x013B
  | .HostComputer _ => 0x013C
  | .Predictor _ => 0x013D
  | .WhitePoint _ => 0x013E
  | .PrimaryChromaticities _ => 0x013F
  | .ColorMap _ => 0x0140
  | .HalftoneHints _ => 0x0141
  | .TileWidth _ => 0x0142
  | .TileLength _ => 0x0143
  | .TileOffsets _ => 0x0144
  | .TileByteCounts _ => 0x0145
  | .SubIFDs _ => 0x014A
  | .InkSet _ => 0x014C
  | .InkNames _ => 0x014D
  | .NumberOfInks _ => 0x014E
  | .DotRange _ => 0x0150
  | .TargetPrinter _ => 0x0151
  | .ExtraSamples _ => 0x0152
  | .SampleFormat _ => 0x0153
  | .SMinSampleValue _ => 0x0154
  | .SMaxSampleValue _ => 0x0155
  | .TransferRange _ => 0x0156
  | .ClipPath _ => 0x0157
  | .XClipPathUnits _ => 0x0158
  | .YClipPathUnits _ => 0x0159
  | .Indexed _ => 0x015A
  | .JPEGTables _ => 0x015B
  | .OPIProxy _ => 0x015F
  | .JPEGProc _ => 0x0200
  | .JPEGInterchangeFormat _ => 0x0201
  | .JPEGInterchangeFormatLength _ => 0x0202
  | .JPEGRestartInterval _ => 0x0203
  | .JPEGLosslessPredictors _ => 0x0205
  | .JPEGPointTransforms _ => 0x0206
  | .JPEGQTables _ => 0x0207
  | .JPEGDCTables _ => 0x0208
  | .JPEGACTables _ => 0x0209
  | .YCbCrCoefficients _ => 0x0211
  | .YCbCrSubSampling _ => 0x0212
  | .YCbCrPositioning _ => 0x0213
  | .ReferenceBlackWhite _ => 0x0214
  | .XMLPacket _ => 0x02BC
  | .Rating _ => 0x4746
  | .RatingPercent _ => 0x4749
  | .VignettingCorrParams _ => 0x7032
  | .ChromaticAberrationCorrParams _ => 0x7035
  | .DistortionCorrParams _ => 0x7037
  | .ImageID _ => 0x800D
  | .CFARepeatPatternDim _ => 0x828D
  | .CFAPattern _ => 0x828E
  | .BatteryLevel _ => 0x828F
  | .Copyright _ => 0x8298
  | .ExposureTime _ => 0x829A
  | .FNumber _ => 0x829D
  | .IPTCNAA _ => 0x83BB
  | .ImageResources _ => 0x8649
  | .ExifTag _ => 0x8769
  | .InterColorProfile _ => 0x8773
  | .ExposureProgram _ => 0x8822
  | .SpectralSensitivity _ => 0x8824
  | .GPSTag _ => 0x8825
  | .ISOSpeedRatings _ => 0x8827
  | .OECF _ => 0x8828
  | .Interlace _ => 0x8829
  | .TimeZoneOffset _ => 0x882A
  | .SelfTimerMode _ => 0x882B
  | .DateTimeOriginal _ => 0x9003
  | .CompressedBitsPerPixel _ => 0x9102
  | .ShutterSpeedValue _ => 0x9201
  | .ApertureValue _ => 0x9202
  | .BrightnessValue _ => 0x9203
  | .ExposureBiasValue _ => 0x9204
  | .MaxApertureValue _ => 0x9205
  | .SubjectDistance _ => 0x9206
  | .MeteringMode _ => 0x9207
  | .LightSource _ => 0x9208
  | .Flash _ => 0x9209
  | .FocalLength _ => 0x920A
  | .FlashEnergy _ => 0x920B
  | .SpatialFrequencyResponse _ => 0x920C
  | .Noise _ => 0x920D
  | .FocalPlaneXResolution _ => 0x920E
  | .FocalPlaneYResolution _ => 0x920F
  | .FocalPlaneResolutionUnit _ => 0x9210
  | .ImageNumber _ => 0x9211
  | .SecurityClassification _ => 0x9212
  | .ImageHistory _ => 0x9213
  | .SubjectLocation _ => 0x9214
  | .ExposureIndex _ => 0x9215
  | .TIFFEPStandardID _ => 0x9216
  | .SensingMethod _ => 0x9217
  | .XPTitle _ => 0x9C9B
  | .XPComment _ => 0x9C9C
  | .XPAuthor _ => 0x9C9D
  | .XPKeywords _ => 0x9C9E
  | .XPSubject _ => 0x9C9F
  | .PrintImageMatching _ => 0xC4A5
  | .DNGVersion _ => 0xC612
  | .DNGBackwardVersion _ => 0xC613
  | .UniqueCameraModel _ => 0xC614
  | .LocalizedCameraModel _ => 0xC615
  | .CFAPlaneColor _ => 0xC616
  | .CFALayout _ => 0xC617
  | .LinearizationTable _ => 0xC618
  | .BlackLevelRepeatDim _ => 0xC619
  | .BlackLevel _ => 0xC61A
  | .BlackLevelDeltaH _ => 0xC61B
  | .BlackLevelDeltaV _ => 0xC61C
  | .WhiteLevel _ => 0xC61D
  | .DefaultScale _ => 0xC61E
  | .DefaultCropOrigin _ => 0xC61F
  | .DefaultCropSize _ => 0xC620
  | .ColorMatrix1 _ => 0xC621
  | .ColorMatrix2 _ => 0xC622
  | .CameraCalibration1 _ => 0xC623
  | .CameraCalibration2 _ => 0xC624
  | .ReductionMatrix1 _ => 0xC625
  | .ReductionMatrix2 _ => 0xC626
  | .AnalogBalance _ => 0xC627
  | .AsShotNeutral _ => 0xC628
  | .AsShotWhiteXY _ => 0xC629
  | .BaselineExposure _ => 0xC62A
  | .BaselineNoise _ => 0xC62B
  | .BaselineSharpness _ => 0xC62C
  | .BayerGreenSplit _ => 0xC62D
  | .LinearResponseLimit _ => 0xC62E
  | .CameraSerialNumber _ => 0xC62F
  | .LensInfo _ => 0xC630
  | .ChromaBlurRadius _ => 0xC631
  | .AntiAliasStrength _ => 0xC632
  | .ShadowScale _ => 0xC633
  | .DNGPrivateData _ => 0xC634
  | .MakerNoteSafety _ => 0xC635
  | .CalibrationIlluminant1 _ => 0xC65A
  | .CalibrationIlluminant2 _ => 0xC65B
  | .BestQualityScale _ => 0xC65C
  | .RawDataUniqueID _ => 0xC65D
  | .OriginalRawFileName _ => 0xC68B
  | .OriginalRawFileData _ => 0xC68C
  | .ActiveArea _ => 0xC68D
  | .MaskedAreas _ => 0xC68E
  | .AsShotICCProfile _ => 0xC68F
  | .AsShotPreProfileMatrix _ => 0xC690
  | .CurrentICCProfile _ => 0xC691
  | .CurrentPreProfileMatrix _ => 0xC692
  | .ColorimetricReference _ => 0xC6BF
  | .CameraCalibrationSignature _ => 0xC6F3
  | .ProfileCalibrationSignature _ => 0xC6F4
  | .ExtraCameraProfiles _ => 0xC6F5
  | .AsShotProfileName _ => 0xC6F6
  | .NoiseReductionApplied _ => 0xC6F7
  | .ProfileName _ => 0xC6F8
  | .ProfileHueSatMapDims _ => 0xC6F9
  | .ProfileHueSatMapData1 _ => 0xC6FA
  | .ProfileHueSatMapData2 _ => 0xC6FB
  | .ProfileToneCurve _ => 0xC6FC
  | .ProfileEmbedPolicy _ => 0xC6FD
  | .ProfileCopyright _ => 0xC6FE
  | .ForwardMatrix1 _ => 0xC714
  | .ForwardMatrix2 _ => 0xC715
  | .PreviewApplicationName _ => 0xC716
  | .PreviewApplicationVersion _ => 0xC717
  | .PreviewSettingsName _ => 0xC718
  | .PreviewSettingsDigest _ => 0xC719
  | .PreviewColorSpace _ => 0xC71A
  | .PreviewDateTime _ => 0xC71B
  | .RawImageDigest _ => 0xC71C
  | .OriginalRawFileDigest _ => 0xC71D
  | .SubTileBlockSize _ => 0xC71E
  | .RowInterleaveFactor _ => 0xC71F
  | .ProfileLookTableDims _ => 0xC725
  | .ProfileLookTableData _ => 0xC726
  | .OpcodeList1 _ => 0xC740
  | .OpcodeList2 _ => 0xC741
  | .OpcodeList3 _ => 0xC74E
  | .NoiseProfile _ => 0xC761
  | .TimeCodes _ => 0xC763
  | .FrameRate _ => 0xC764
  | .TStop _ => 0xC772
  | .ReelName _ => 0xC789
  | .CameraLabel _ => 0xC7A1
  | .OriginalDefaultFinalSize _ => 0xC791
  | .OriginalBestQualityFinalSize _ => 0xC792
  | .OriginalDefaultCropSize _ => 0xC793
  | .ProfileHueSatMapEncoding _ => 0xC7A3
  | .ProfileLookTableEncoding _ => 0xC7A4
  | .BaselineExposureOffset _ => 0xC7A5
  | .DefaultBlackRender _ => 0xC7A6
  | .NewRawImageDigest _ => 0xC7A7
  | .RawToPreviewGain _ => 0xC7A8
  | .DefaultUserCrop _ => 0xC7B5
  | .DepthFormat _ => 0xC7E9
  | .DepthNear _ => 0xC7EA
  | .DepthFar _ => 0xC7EB
  | .DepthUnits _ => 0xC7EC
  | .DepthMeasureType _ => 0xC7ED
  | .EnhanceParams _ => 0xC7EE
  | .ProfileGainTableMap _ => 0xCD2D
  | .SemanticName _ => 0xCD2E
  | .SemanticInstanceID _ => 0xCD30
  | .CalibrationIlluminant3 _ => 0xCD31
  | .CameraCalibration3 _ => 0xCD32
  | .ColorMatrix3 _ => 0xCD33
  | .ForwardMatrix3 _ => 0xCD34
  | .IlluminantData1 _ => 0xCD35
  | .IlluminantData2 _ => 0xCD36
  | .IlluminantData3 _ => 0xCD37
  | .MaskSubArea _ => 0xCD38
  | .ProfileHueSatMapData3 _ => 0xCD39
  | .ReductionMatrix3 _ => 0xCD3A
  | .RGBTables _ => 0xCD3B
  | .ProfileGainTableMap2 _ => 0xCD40
  | .ColumnInterleaveFactor _ => 0xCD43
  | .ImageSequenceInfo _ => 0xCD44
  | .ImageStats _ => 0xCD46
  | .ProfileDynamicRange _ => 0xCD47
  | .ProfileGroupName _ => 0xCD48
  | .JXLDistance _ => 0xCD49
  | .JXLEffort _ => 0xCD4A
  | .JXLDecodeSpeed _ => 0xCD4B

/-- The variant (field) name, identifying the constructor. -/
def Image.fieldName : Image → String
  | .ProcessingSoftware _ => "ProcessingSoftware"
  | .NewSubfileType _ => "NewSubfileType"
  | .SubfileType _ => "SubfileType"
  | .ImageWidth _ => "ImageWidth"
  | .ImageLength _ => "ImageLength"
  | .BitsPerSample _ => "BitsPerSample"
  | .Compression _ => "Compression"
  | .PhotometricInterpretation _ => "PhotometricInterpretation"
  | .Thresholding _ => "Thresholding"
  | .CellWidth _ => "CellWidth"
  | .CellLength _ => "CellLength"
  | .FillOrder _ => "FillOrder"
  | .DocumentName _ => "DocumentName"
  | .ImageDescription _ => "ImageDescription"
  | .Make _ => "Make"
  | .Model _ => "Model"
  | .StripOffsets _ => "StripOffsets"
  | .Orientation _ => "Orientation"
  | .SamplesPerPixel _ => "SamplesPerPixel"
  | .RowsPerStrip _ => "RowsPerStrip"
  | .StripByteCounts _ => "StripByteCounts"
  | .XResolution _ => "XResolution"
  | .YResolution _ => "YResolution"
  | .PlanarConfiguration _ => "PlanarConfiguration"
  | .PageName _ => "PageName"
  | .XPosition _ => "XPosition"
  | .YPosition _ => "YPosition"
  | .GrayResponseUnit _ => "GrayResponseUnit"
  | .GrayResponseCurve _ => "GrayResponseCurve"
  | .T4Options _ => "T4Options"
  | .T6Options _ => "T6Options"
  | .ResolutionUnit _ => "ResolutionUnit"
  | .PageNumber _ => "PageNumber"
  | .TransferFunction _ => "TransferFunction"
  | .Software _ => "Software"
  | .DateTime _ => "DateTime"
  | .Artist _ => "Artist"
  | .HostComputer _ => "HostComputer"
  | .Predictor _ => "Predictor"
  | .WhitePoint _ => "WhitePoint"
  | .PrimaryChromaticities _ => "PrimaryChromaticities"
  | .ColorMap _ => "ColorMap"
  | .HalftoneHints _ => "HalftoneHints"
  | .TileWidth _ => "TileWidth"
  | .TileLength _ => "TileLength"
  | .TileOffsets _ => "TileOffsets"
  | .TileByteCounts _ => "TileByteCounts"
  | .SubIFDs _ => "SubIFDs"
  | .InkSet _ => "InkSet"
  | .InkNames _ => "InkNames"
  | .NumberOfInks _ => "NumberOfInks"
  | .DotRange _ => "DotRange"
  | .TargetPrinter _ => "TargetPrinter"
  | .ExtraSamples _ => "ExtraSamples"
  | .SampleFormat _ => "SampleFormat"
  | .SMinSampleValue _ => "SMinSampleValue"
  | .SMaxSampleValue _ => "SMaxSampleValue"
  | .TransferRange _ => "TransferRange"
  | .ClipPath _ => "ClipPath"
  | .XClipPathUnits _ => "XClipPathUnits"
  | .YClipPathUnits _ => "YClipPathUnits"
  | .Indexed _ => "Indexed"
  | .JPEGTables _ => "JPEGTables"
  | .OPIProxy _ => "OPIProxy"
  | .JPEGProc _ => "JPEGProc"
  | .JPEGInterchangeFormat _ => "JPEGInterchangeFormat"
  | .JPEGInterchangeFormatLength _ => "JPEGInterchangeFormatLength"
  | .JPEGRestartInterval _ => "JPEGRestartInterval"
  | .JPEGLosslessPredictors _ => "JPEGLosslessPredictors"
  | .JPEGPointTransforms _ => "JPEGPointTransforms"
  | .JPEGQTables _ => "JPEGQTables"
  | .JPEGDCTables _ => "JPEGDCTables"
  | .JPEGACTables _ => "JPEGACTables"
  | .YCbCrCoefficients _ => "YCbCrCoefficients"
  | .YCbCrSubSampling _ => "YCbCrSubSampling"
  | .YCbCrPositioning _ => "YCbCrPositioning"
  | .ReferenceBlackWhite _ => "ReferenceBlackWhite"
  | .XMLPacket _ => "XMLPacket"
  | .Rating _ => "Rating"
  | .RatingPercent _ => "RatingPercent"
  | .VignettingCorrParams _ => "VignettingCorrParams"
  | .ChromaticAberrationCorrParams _ => "ChromaticAberrationCorrParams"
  | .DistortionCorrParams _ => "DistortionCorrParams"
  | .ImageID _ => "ImageID"
  | .CFARepeatPatternDim _ => "CFARepeatPatternDim"
  | .CFAPattern _ => "CFAPattern"
  | .BatteryLevel _ => "BatteryLevel"
  | .Copyright _ => "Copyright"
  | .ExposureTime _ => "ExposureTime"
  | .FNumber _ => "FNumber"
  | .IPTCNAA _ => "IPTCNAA"
  | .ImageResources _ => "ImageResources"
  | .ExifTag _ => "ExifTag"
  | .InterColorProfile _ => "InterColorProfile"
  | .ExposureProgram _ => "ExposureProgram"
  | .SpectralSensitivity _ => "SpectralSensitivity"
  | .GPSTag _ => "GPSTag"
  | .ISOSpeedRatings _ => "ISOSpeedRatings"
  | .OECF _ => "OECF"
  | .Interlace _ => "Interlace"
  | .TimeZoneOffset _ => "TimeZoneOffset"
  | .SelfTimerMode _ => "SelfTimerMode"
  | .DateTimeOriginal _ => "DateTimeOriginal"
  | .CompressedBitsPerPixel _ => "CompressedBitsPerPixel"
  | .ShutterSpeedValue _ => "ShutterSpeedValue"
  | .ApertureValue _ => "ApertureValue"
  | .BrightnessValue _ => "BrightnessValue"
  | .ExposureBiasValue _ => "ExposureBiasValue"
  | .MaxApertureValue _ => "MaxApertureValue"
  | .SubjectDistance _ => "SubjectDistance"
  | .MeteringMode _ => "MeteringMode"
  | .LightSource _ => "LightSource"
  | .Flash _ => "Flash"
  | .FocalLength _ => "FocalLength"
  | .FlashEnergy _ => "FlashEnergy"
  | .SpatialFrequencyResponse _ => "SpatialFrequencyResponse"
  | .Noise _ => "Noise"
  | .FocalPlaneXResolution _ => "FocalPlaneXResolution"
  | .FocalPlaneYResolution _ => "FocalPlaneYResolution"
  | .FocalPlaneResolutionUnit _ => "FocalPlaneResolutionUnit"
  | .ImageNumber _ => "ImageNumber"
  | .SecurityClassification _ => "SecurityClassification"
  | .ImageHistory _ => "ImageHistory"
  | .SubjectLocation _ => "SubjectLocation"
  | .ExposureIndex _ => "ExposureIndex"
  | .TIFFEPStandardID _ => "TIFFEPStandardID"
  | .SensingMethod _ => "SensingMethod"
  | .XPTitle _ => "XPTitle"
  | .XPComment _ => "XPComment"
  | .XPAuthor _ => "XPAuthor"
  | .XPKeywords _ => "XPKeywords"
  | .XPSubject _ => "XPSubject"
  | .PrintImageMatching _ => "PrintImageMatching"
  | .DNGVersion _ => "DNGVersion"
  | .DNGBackwardVersion _ => "DNGBackwardVersion"
  | .UniqueCameraModel _ => "UniqueCameraModel"
  | .LocalizedCameraModel _ => "LocalizedCameraModel"
  | .CFAPlaneColor _ => "CFAPlaneColor"
  | .CFALayout _ => "CFALayout"
  | .LinearizationTable _ => "LinearizationTable"
  | .BlackLevelRepeatDim _ => "BlackLevelRepeatDim"
  | .BlackLevel _ => "BlackLevel"
  | .BlackLevelDeltaH _ => "BlackLevelDeltaH"
  | .BlackLevelDeltaV _ => "BlackLevelDeltaV"
  | .WhiteLevel _ => "WhiteLevel"
  | .DefaultScale _ => "DefaultScale"
  | .DefaultCropOrigin _ => "DefaultCropOrigin"
  | .DefaultCropSize _ => "DefaultCropSize"
  | .ColorMatrix1 _ => "ColorMatrix1"
  | .ColorMatrix2 _ => "ColorMatrix2"
  | .CameraCalibration1 _ => "CameraCalibration1"
  | .CameraCalibration2 _ => "CameraCalibration2"
  | .ReductionMatrix1 _ => "ReductionMatrix1"
  | .ReductionMatrix2 _ => "ReductionMatrix2"
  | .AnalogBalance _ => "AnalogBalance"
  | .AsShotNeutral _ => "AsShotNeutral"
  | .AsShotWhiteXY _ => "AsShotWhiteXY"
  | .BaselineExposure _ => "BaselineExposure"
  | .BaselineNoise _ => "BaselineNoise"
  | .BaselineSharpness _ => "BaselineSharpness"
  | .BayerGreenSplit _ => "BayerGreenSplit"
  | .LinearResponseLimit _ => "LinearResponseLimit"
  | .CameraSerialNumber _ => "CameraSerialNumber"
  | .LensInfo _ => "LensInfo"
  | .ChromaBlurRadius _ => "ChromaBlurRadius"
  | .AntiAliasStrength _ => "AntiAliasStrength"
  | .ShadowScale _ => "ShadowScale"
  | .DNGPrivateData _ => "DNGPrivateData"
  | .MakerNoteSafety _ => "MakerNoteSafety"
  | .CalibrationIlluminant1 _ => "CalibrationIlluminant1"
  | .CalibrationIlluminant2 _ => "CalibrationIlluminant2"
  | .BestQualityScale _ => "BestQualityScale"
  | .RawDataUniqueID _ => "RawDataUniqueID"
  | .OriginalRawFileName _ => "OriginalRawFileName"
  | .OriginalRawFileData _ => "OriginalRawFileData"
  | .ActiveArea _ => "ActiveArea"
  | .MaskedAreas _ => "MaskedAreas"
  | .AsShotICCProfile _ => "AsShotICCProfile"
  | .AsShotPreProfileMatrix _ => "AsShotPreProfileMatrix"
  | .CurrentICCProfile _ => "CurrentICCProfile"
  | .CurrentPreProfileMatrix _ => "CurrentPreProfileMatrix"
  | .ColorimetricReference _ => "ColorimetricReference"
  | .CameraCalibrationSignature _ => "CameraCalibrationSignature"
  | .ProfileCalibrationSignature _ => "ProfileCalibrationSignature"
  | .ExtraCameraProfiles _ => "ExtraCameraProfiles"
  | .AsShotProfileName _ => "AsShotProfileName"
  | .NoiseReductionApplied _ => "NoiseReductionApplied"
  | .ProfileName _ => "ProfileName"
  | .ProfileHueSatMapDims _ => "ProfileHueSatMapDims"
  | .ProfileHueSatMapData1 _ => "ProfileHueSatMapData1"
  | .ProfileHueSatMapData2 _ => "ProfileHueSatMapData2"
  | .ProfileToneCurve _ => "ProfileToneCurve"
  | .ProfileEmbedPolicy _ => "ProfileEmbedPolicy"
  | .ProfileCopyright _ => "ProfileCopyright"
  | .ForwardMatrix1 _ => "ForwardMatrix1"
  | .ForwardMatrix2 _ => "ForwardMatrix2"
  | .PreviewApplicationName _ => "PreviewApplicationName"
  | .PreviewApplicationVersion _ => "PreviewApplicationVersion"
  | .PreviewSettingsName _ => "PreviewSettingsName"
  | .PreviewSettingsDigest _ => "PreviewSettingsDigest"
  | .PreviewColorSpace _ => "PreviewColorSpace"
  | .PreviewDateTime _ => "PreviewDateTime"
  | .RawImageDigest _ => "RawImageDigest"
  | .OriginalRawFileDigest _ => "OriginalRawFileDigest"
  | .SubTileBlockSize _ => "SubTileBlockSize"
  | .RowInterleaveFactor _ => "RowInterleaveFactor"
  | .ProfileLookTableDims _ => "ProfileLookTableDims"
  | .ProfileLookTableData _ => "ProfileLookTableData"
  | .OpcodeList1 _ => "OpcodeList1"
  | .OpcodeList2 _ => "OpcodeList2"
  | .OpcodeList3 _ => "OpcodeList3"
  | .NoiseProfile _ => "NoiseProfile"
  | .TimeCodes _ => "TimeCodes"
  | .FrameRate _ => "FrameRate"
  | .TStop _ => "TStop"
  | .ReelName _ => "ReelName"
  | .CameraLabel _ => "CameraLabel"
  | .OriginalDefaultFinalSize _ => "OriginalDefaultFinalSize"
  | .OriginalBestQualityFinalSize _ => "OriginalBestQualityFinalSize"
  | .OriginalDefaultCropSize _ => "OriginalDefaultCropSize"
  | .ProfileHueSatMapEncoding _ => "ProfileHueSatMapEncoding"
  | .ProfileLookTableEncoding _ => "ProfileLookTableEncoding"
  | .BaselineExposureOffset _ => "BaselineExposureOffset"
  | .DefaultBlackRender _ => "DefaultBlackRender"
  | .NewRawImageDigest _ => "NewRawImageDigest"
  | .RawToPreviewGain _ => "RawToPreviewGain"
  | .DefaultUserCrop _ => "DefaultUserCrop"
  | .DepthFormat _ => "DepthFormat"
  | .DepthNear _ => "DepthNear"
  | .DepthFar _ => "DepthFar"
  | .DepthUnits _ => "DepthUnits"
  | .DepthMeasureType _ => "DepthMeasureType"
  | .EnhanceParams _ => "EnhanceParams"
  | .ProfileGainTableMap _ => "ProfileGainTableMap"
  | .SemanticName _ => "SemanticName"
  | .SemanticInstanceID _ => "SemanticInstanceID"
  | .CalibrationIlluminant3 _ => "CalibrationIlluminant3"
  | .CameraCalibration3 _ => "CameraCalibration3"
  | .ColorMatrix3 _ => "ColorMatrix3"
  | .ForwardMatrix3 _ => "ForwardMatrix3"
  | .IlluminantData1 _ => "IlluminantData1"
  | .IlluminantData2 _ => "IlluminantData2"
  | .IlluminantData3 _ => "IlluminantData3"
  | .MaskSubArea _ => "MaskSubArea"
  | .ProfileHueSatMapData3 _ => "ProfileHueSatMapData3"
  | .ReductionMatrix3 _ => "ReductionMatrix3"
  | .RGBTables _ => "RGBTables"
  | .ProfileGainTableMap2 _ => "ProfileGainTableMap2"
  | .ColumnInterleaveFactor _ => "ColumnInterleaveFactor"
  | .ImageSequenceInfo _ => "ImageSequenceInfo"
  | .ImageStats _ => "ImageStats"
  | .ProfileDynamicRange _ => "ProfileDynamicRange"
  | .ProfileGroupName _ => "ProfileGroupName"
  | .JXLDistance _ => "JXLDistance"
  | .JXLEffort _ => "JXLEffort"
  | .JXLDecodeSpeed _ => "JXLDecodeSpeed"

/-- The declared primitive payload kind of each variant. -/
def Image.primType : Image → PrimType
  | .ProcessingSoftware _ => PrimType.ascii
  | .NewSubfileType _ => PrimType.long
  | .SubfileType _ => PrimType.short
  | .ImageWidth _ => PrimType.long
  | .ImageLength _ => PrimType.long
  | .BitsPerSample _ => PrimType.short
  | .Compression _ => PrimType.short
  | .PhotometricInterpretation _ => PrimType.short
  | .Thresholding _ => PrimType.short
  | .CellWidth _ => PrimType.short
  | .CellLength _ => PrimType.short
  | .FillOrder _ => PrimType.short
  | .DocumentName _ => PrimType.ascii
  | .ImageDescription _ => PrimType.ascii
  | .Make _ => PrimType.ascii
  | .Model _ => PrimType.ascii
  | .StripOffsets _ => PrimType.long
  | .Orientation _ => PrimType.short
  | .SamplesPerPixel _ => PrimType.short
  | .RowsPerStrip _ => PrimType.long
  | .StripByteCounts _ => PrimType.long
  | .XResolution _ => PrimType.rational
  | .YResolution _ => PrimType.rational
  | .PlanarConfiguration _ => PrimType.short
  | .PageName _ => PrimType.ascii
  | .XPosition _ => PrimType.rational
  | .YPosition _ => PrimType.rational
  | .GrayResponseUnit _ => PrimType.short
  | .GrayResponseCurve _ => PrimType.short
  | .T4Options _ => PrimType.long
  | .T6Options _ => PrimType.long
  | .ResolutionUnit _ => PrimType.short
  | .PageNumber _ => PrimType.short
  | .TransferFunction _ => PrimType.short
  | .Software _ => PrimType.ascii
  | .DateTime _ => PrimType.ascii
  | .Artist _ => PrimType.ascii
  | .HostComputer _ => PrimType.ascii
  | .Predictor _ => PrimType.short
  | .WhitePoint _ => PrimType.rational
  | .PrimaryChromaticities _ => PrimType.rational
  | .ColorMap _ => PrimType.short
  | .HalftoneHints _ => PrimType.short
  | .TileWidth _ => PrimType.long
  | .TileLength _ => PrimType.long
  | .TileOffsets _ => PrimType.short
  | .TileByteCounts _ => PrimType.long
  | .SubIFDs _ => PrimType.long
  | .InkSet _ => PrimType.short
  | .InkNames _ => PrimType.ascii
  | .NumberOfInks _ => PrimType.short
  | .DotRange _ => PrimType.byte
  | .TargetPrinter _ => PrimType.ascii
  | .ExtraSamples _ => PrimType.short
  | .SampleFormat _ => PrimType.short
  | .SMinSampleValue _ => PrimType.short
  | .SMaxSampleValue _ => PrimType.short
  | .TransferRange _ => PrimType.short
  | .ClipPath _ => PrimType.byte
  | .XClipPathUnits _ => PrimType.sshort
  | .YClipPathUnits _ => PrimType.sshort
  | .Indexed _ => PrimType.short
  | .JPEGTables _ => PrimType.undefined
  | .OPIProxy _ => PrimType.short
  | .JPEGProc _ => PrimType.long
  | .JPEGInterchangeFormat _ => PrimType.long
  | .JPEGInterchangeFormatLength _ => PrimType.long
  | .JPEGRestartInterval _ => PrimType.short
  | .JPEGLosslessPredictors _ => PrimType.short
  | .JPEGPointTransforms _ => PrimType.short
  | .JPEGQTables _ => PrimType.long
  | .JPEGDCTables _ => PrimType.long
  | .JPEGACTables _ => PrimType.long
  | .YCbCrCoefficients _ => PrimType.rational
  | .YCbCrSubSampling _ => PrimType.short
  | .YCbCrPositioning _ => PrimType.short
  | .ReferenceBlackWhite _ => PrimType.rational
  | .XMLPacket _ => PrimType.byte
  | .Rating _ => PrimType.short
  | .RatingPercent _ => PrimType.short
  | .VignettingCorrParams _ => PrimType.sshort
  | .ChromaticAberrationCorrParams _ => PrimType.sshort
  | .DistortionCorrParams _ => PrimType.sshort
  | .ImageID _ => PrimType.ascii
  | .CFARepeatPatternDim _ => PrimType.short
  | .CFAPattern _ => PrimType.byte
  | .BatteryLevel _ => PrimType.rational
  | .Copyright _ => PrimType.ascii
  | .ExposureTime _ => PrimType.rational
  | .FNumber _ => PrimType.rational
  | .IPTCNAA _ => PrimType.long
  | .ImageResources _ => PrimType.byte
  | .ExifTag _ => PrimType.long
  | .InterColorProfile _ => PrimType.undefined
  | .ExposureProgram _ => PrimType.short
  | .SpectralSensitivity _ => PrimType.ascii
  | .GPSTag _ => PrimType.long
  | .ISOSpeedRatings _ => PrimType.short
  | .OECF _ => PrimType.undefined
  | .Interlace _ => PrimType.short
  | .TimeZoneOffset _ => PrimType.sshort
  | .SelfTimerMode _ => PrimType.short
  | .DateTimeOriginal _ => PrimType.ascii
  | .CompressedBitsPerPixel _ => PrimType.rational
  | .ShutterSpeedValue _ => PrimType.srational
  | .ApertureValue _ => PrimType.rational
  | .BrightnessValue _ => PrimType.srational
  | .ExposureBiasValue _ => PrimType.srational
  | .MaxApertureValue _ => PrimType.rational
  | .SubjectDistance _ => PrimType.srational
  | .MeteringMode _ => PrimType.short
  | .LightSource _ => PrimType.short
  | .Flash _ => PrimType.short
  | .FocalLength _ => PrimType.rational
  | .FlashEnergy _ => PrimType.rational
  | .SpatialFrequencyResponse _ => PrimType.undefined
  | .Noise _ => PrimType.undefined
  | .FocalPlaneXResolution _ => PrimType.rational
  | .FocalPlaneYResolution _ => PrimType.rational
  | .FocalPlaneResolutionUnit _ => PrimType.short
  | .ImageNumber _ => PrimType.long
  | .SecurityClassification _ => PrimType.ascii
  | .ImageHistory _ => PrimType.ascii
  | .SubjectLocation _ => PrimType.short
  | .ExposureIndex _ => PrimType.rational
  | .TIFFEPStandardID _ => PrimType.byte
  | .SensingMethod _ => PrimType.short
  | .XPTitle _ => PrimType.byte
  | .XPComment _ => PrimType.byte
  | .XPAuthor _ => PrimType.byte
  | .XPKeywords _ => PrimType.byte
  | .XPSubject _ => PrimType.byte
  | .PrintImageMatching _ => PrimType.undefined
  | .DNGVersion _ => PrimType.byte
  | .DNGBackwardVersion _ => PrimType.byte
  | .UniqueCameraModel _ => PrimType.ascii
  | .LocalizedCameraModel _ => PrimType.byte
  | .CFAPlaneColor _ => PrimType.byte
  | .CFALayout _ => PrimType.short
  | .LinearizationTable _ => PrimType.short
  | .BlackLevelRepeatDim _ => PrimType.short
  | .BlackLevel _ => PrimType.rational
  | .BlackLevelDeltaH _ => PrimType.srational
  | .BlackLevelDeltaV _ => PrimType.srational
  | .WhiteLevel _ => PrimType.long
  | .DefaultScale _ => PrimType.rational
  | .DefaultCropOrigin _ => PrimType.long
  | .DefaultCropSize _ => PrimType.long
  | .ColorMatrix1 _ => PrimType.srational
  | .ColorMatrix2 _ => PrimType.srational
  | .CameraCalibration1 _ => PrimType.srational
  | .CameraCalibration2 _ => PrimType.srational
  | .ReductionMatrix1 _ => PrimType.srational
  | .ReductionMatrix2 _ => PrimType.srational
  | .AnalogBalance _ => PrimType.rational
  | .AsShotNeutral _ => PrimType.short
  | .AsShotWhiteXY _ => PrimType.rational
  | .BaselineExposure _ => PrimType.srational
  | .BaselineNoise _ => PrimType.rational
  | .BaselineSharpness _ => PrimType.rational
  | .BayerGreenSplit _ => PrimType.long
  | .LinearResponseLimit _ => PrimType.rational
  | .CameraSerialNumber _ => PrimType.ascii
  | .LensInfo _ => PrimType.rational
  | .ChromaBlurRadius _ => PrimType.rational
  | .AntiAliasStrength _ => PrimType.rational
  | .ShadowScale _ => PrimType.srational
  | .DNGPrivateData _ => PrimType.byte
  | .MakerNoteSafety _ => PrimType.short
  | .CalibrationIlluminant1 _ => PrimType.short
  | .CalibrationIlluminant2 _ => PrimType.short
  | .BestQualityScale _ => PrimType.rational
  | .RawDataUniqueID _ => PrimType.byte
  | .OriginalRawFileName _ => PrimType.byte
  | .OriginalRawFileData _ => PrimType.undefined
  | .ActiveArea _ => PrimType.long
  | .MaskedAreas _ => PrimType.long
  | .AsShotICCProfile _ => PrimType.undefined
  | .AsShotPreProfileMatrix _ => PrimType.srational
  | .CurrentICCProfile _ => PrimType.undefined
  | .CurrentPreProfileMatrix _ => PrimType.srational
  | .ColorimetricReference _ => PrimType.short
  | .CameraCalibrationSignature _ => PrimType.byte
  | .ProfileCalibrationSignature _ => PrimType.byte
  | .ExtraCameraProfiles _ => PrimType.long
  | .AsShotProfileName _ => PrimType.byte
  | .NoiseReductionApplied _ => PrimType.rational
  | .ProfileName _ => PrimType.byte
  | .ProfileHueSatMapDims _ => PrimType.long
  | .ProfileHueSatMapData1 _ => PrimType.float
  | .ProfileHueSatMapData2 _ => PrimType.float
  | .ProfileToneCurve _ => PrimType.float
  | .ProfileEmbedPolicy _ => PrimType.long
  | .ProfileCopyright _ => PrimType.byte
  | .ForwardMatrix1 _ => PrimType.srational
  | .ForwardMatrix2 _ => PrimType.srational
  | .PreviewApplicationName _ => PrimType.byte
  | .PreviewApplicationVersion _ => PrimType.byte
  | .PreviewSettingsName _ => PrimType.byte
  | .PreviewSettingsDigest _ => PrimType.byte
  | .PreviewColorSpace _ => PrimType.long
  | .PreviewDateTime _ => PrimType.ascii
  | .RawImageDigest _ => PrimType.undefined
  | .OriginalRawFileDigest _ => PrimType.undefined
  | .SubTileBlockSize _ => PrimType.long
  | .RowInterleaveFactor _ => PrimType.long
  | .ProfileLookTableDims _ => PrimType.long
  | .ProfileLookTableData _ => PrimType.float
  | .OpcodeList1 _ => PrimType.undefined
  | .OpcodeList2 _ => PrimType.undefined
  | .OpcodeList3 _ => PrimType.undefined
  | .NoiseProfile _ => PrimType.double
  | .TimeCodes _ => PrimType.byte
  | .FrameRate _ => PrimType.srational
  | .TStop _ => PrimType.srational
  | .ReelName _ => PrimType.ascii
  | .CameraLabel _ => PrimType.ascii
  | .OriginalDefaultFinalSize _ => PrimType.long
  | .OriginalBestQualityFinalSize _ => PrimType.long
  | .OriginalDefaultCropSize _ => PrimType.long
  | .ProfileHueSatMapEncoding _ => PrimType.long
  | .ProfileLookTableEncoding _ => PrimType.long
  | .BaselineExposureOffset _ => PrimType.srational
  | .DefaultBlackRender _ => PrimType.long
  | .NewRawImageDigest _ => PrimType.byte
  | .RawToPreviewGain _ => PrimType.double
  | .DefaultUserCrop _ => PrimType.rational
  | .DepthFormat _ => PrimType.short
  | .DepthNear _ => PrimType.rational
  | .DepthFar _ => PrimType.rational
  | .DepthUnits _ => PrimType.short
  | .DepthMeasureType _ => PrimType.short
  | .EnhanceParams _ => PrimType.ascii
  | .ProfileGainTableMap _ => PrimType.undefined
  | .SemanticName _ => PrimType.ascii
  | .SemanticInstanceID _ => PrimType.ascii
  | .CalibrationIlluminant3 _ => PrimType.short
  | .CameraCalibration3 _ => PrimType.srational
  | .ColorMatrix3 _ => PrimType.srational
  | .ForwardMatrix3 _ => PrimType.srational
  | .IlluminantData1 _ => PrimType.undefined
  | .IlluminantData2 _ => PrimType.undefined
  | .IlluminantData3 _ => PrimType.undefined
  | .MaskSubArea _ => PrimType.long
  | .ProfileHueSatMapData3 _ => PrimType.float
  | .ReductionMatrix3 _ => PrimType.srational
  | .RGBTables _ => PrimType.undefined
  | .ProfileGainTableMap2 _ => PrimType.undefined
  | .ColumnInterleaveFactor _ => PrimType.long
  | .ImageSequenceInfo _ => PrimType.undefined
  | .ImageStats _ => PrimType.undefined
  | .ProfileDynamicRange _ => PrimType.undefined
  | .ProfileGroupName _ => PrimType.ascii
  | .JXLDistance _ => PrimType.float
  | .JXLEffort _ => PrimType.long
  | .JXLDecodeSpeed _ => PrimType.long

/-- The payload of a variant, injected into `PrimValue`. -/
def Image.payload : Image → PrimValue
  | .ProcessingSoftware v => PrimValue.ascii v
  | .NewSubfileType v => PrimValue.long v
  | .SubfileType v => PrimValue.short v
  | .ImageWidth v => PrimValue.long v
  | .ImageLength v => PrimValue.long v
  | .BitsPerSample v => PrimValue.short v
  | .Compression v => PrimValue.short v
  | .PhotometricInterpretation v => PrimValue.short v
  | .Thresholding v => PrimValue.short v
  | .CellWidth v => PrimValue.short v
  | .CellLength v => PrimValue.short v
  | .FillOrder v => PrimValue.short v
  | .DocumentName v => PrimValue.ascii v
  | .ImageDescription v => PrimValue.ascii v
  | .Make v => PrimValue.ascii v
  | .Model v => PrimValue.ascii v
  | .StripOffsets v => PrimValue.long v
  | .Orientation v => PrimValue.short v
  | .SamplesPerPixel v => PrimValue.short v
  | .RowsPerStrip v => PrimValue.long v
  | .StripByteCounts v => PrimValue.long v
  | .XResolution v => PrimValue.rational v
  | .YResolution v => PrimValue.rational v
  | .PlanarConfiguration v => PrimValue.short v
  | .PageName v => PrimValue.ascii v
  | .XPosition v => PrimValue.rational v
  | .YPosition v => PrimValue.rational v
  | .GrayResponseUnit v => PrimValue.short v
  | .GrayResponseCurve v => PrimValue.short v
  | .T4Options v => PrimValue.long v
  | .T6Options v => PrimValue.long v
  | .ResolutionUnit v => PrimValue.short v
  | .PageNumber v => PrimValue.short v
  | .TransferFunction v => PrimValue.short v
  | .Software v => PrimValue.ascii v
  | .DateTime v => PrimValue.ascii v
  | .Artist v => PrimValue.ascii v
  | .HostComputer v => PrimValue.ascii v
  | .Predictor v => PrimValue.short v
  | .WhitePoint v => PrimValue.rational v
  | .PrimaryChromaticities v => PrimValue.rational v
  | .ColorMap v => PrimValue.short v
  | .HalftoneHints v => PrimValue.short v
  | .TileWidth v => PrimValue.long v
  | .TileLength v => PrimValue.long v
  | .TileOffsets v => PrimValue.short v
  | .TileByteCounts v => PrimValue.long v
  | .SubIFDs v => PrimValue.long v
  | .InkSet v => PrimValue.short v
  | .InkNames v => PrimValue.ascii v
  | .NumberOfInks v => PrimValue.short v
  | .DotRange v => PrimValue.byte v
  | .TargetPrinter v => PrimValue.ascii v
  | .ExtraSamples v => PrimValue.short v
  | .SampleFormat v => PrimValue.short v
  | .SMinSampleValue v => PrimValue.short v
  | .SMaxSampleValue v => PrimValue.short v
  | .TransferRange v => PrimValue.short v
  | .ClipPath v => PrimValue.byte v
  | .XClipPathUnits v => PrimValue.sshort v
  | .YClipPathUnits v => PrimValue.sshort v
  | .Indexed v => PrimValue.short v
  | .JPEGTables v => PrimValue.undefined v
  | .OPIProxy v => PrimValue.short v
  | .JPEGProc v => PrimValue.long v
  | .JPEGInterchangeFormat v => PrimValue.long v
  | .JPEGInterchangeFormatLength v => PrimValue.long v
  | .JPEGRestartInterval v => PrimValue.short v
  | .JPEGLosslessPredictors v => PrimValue.short v
  | .JPEGPointTransforms v => PrimValue.short v
  | .JPEGQTables v => PrimValue.long v
  | .JPEGDCTables v => PrimValue.long v
  | .JPEGACTables v => PrimValue.long v
  | .YCbCrCoefficients v => PrimValue.rational v
  | .YCbCrSubSampling v => PrimValue.short v
  | .YCbCrPositioning v => PrimValue.short v
  | .ReferenceBlackWhite v => PrimValue.rational v
  | .XMLPacket v => PrimValue.byte v
  | .Rating v => PrimValue.short v
  | .RatingPercent v => PrimValue.short v
  | .VignettingCorrParams v => PrimValue.sshort v
  | .ChromaticAberrationCorrParams v => PrimValue.sshort v
  | .DistortionCorrParams v => PrimValue.sshort v
  | .ImageID v => PrimValue.ascii v
  | .CFARepeatPatternDim v => PrimValue.short v
  | .CFAPattern v => PrimValue.byte v
  | .BatteryLevel v => PrimValue.rational v
  | .Copyright v => PrimValue.ascii v
  | .ExposureTime v => PrimValue.rational v
  | .FNumber v => PrimValue.rational v
  | .IPTCNAA v => PrimValue.long v
  | .ImageResources v => PrimValue.byte v
  | .ExifTag v => PrimValue.long v
  | .InterColorProfile v => PrimValue.undefined v
  | .ExposureProgram v => PrimValue.short v
  | .SpectralSensitivity v => PrimValue.ascii v
  | .GPSTag v => PrimValue.long v
  | .ISOSpeedRatings v => PrimValue.short v
  | .OECF v => PrimValue.undefined v
  | .Interlace v => PrimValue.short v
  | .TimeZoneOffset v => PrimValue.sshort v
  | .SelfTimerMode v => PrimValue.short v
  | .DateTimeOriginal v => PrimValue.ascii v
  | .CompressedBitsPerPixel v => PrimValue.rational v
  | .ShutterSpeedValue v => PrimValue.srational v
  | .ApertureValue v => PrimValue.rational v
  | .BrightnessValue v => PrimValue.srational v
  | .ExposureBiasValue v => PrimValue.srational v
  | .MaxApertureValue v => PrimValue.rational v
  | .SubjectDistance v => PrimValue.srational v
  | .MeteringMode v => PrimValue.short v
  | .LightSource v => PrimValue.short v
  | .Flash v => PrimValue.short v
  | .FocalLength v => PrimValue.rational v
  | .FlashEnergy v => PrimValue.rational v
  | .SpatialFrequencyResponse v => PrimValue.undefined v
  | .Noise v => PrimValue.undefined v
  | .FocalPlaneXResolution v => PrimValue.rational v
  | .FocalPlaneYResolution v => PrimValue.rational v
  | .FocalPlaneResolutionUnit v => PrimValue.short v
  | .ImageNumber v => PrimValue.long v
  | .SecurityClassification v => PrimValue.ascii v
  | .ImageHistory v => PrimValue.ascii v
  | .SubjectLocation v => PrimValue.short v
  | .ExposureIndex v => PrimValue.rational v
  | .TIFFEPStandardID v => PrimValue.byte v
  | .SensingMethod v => PrimValue.short v
  | .XPTitle v => PrimValue.byte v
  | .XPComment v => PrimValue.byte v
  | .XPAuthor v => PrimValue.byte v
  | .XPKeywords v => PrimValue.byte v
  | .XPSubject v => PrimValue.byte v
  | .PrintImageMatching v => PrimValue.undefined v
  | .DNGVersion v => PrimValue.byte v
  | .DNGBackwardVersion v => PrimValue.byte v
  | .UniqueCameraModel v => PrimValue.ascii v
  | .LocalizedCameraModel v => PrimValue.byte v
  | .CFAPlaneColor v => PrimValue.byte v
  | .CFALayout v => PrimValue.short v
  | .LinearizationTable v => PrimValue.short v
  | .BlackLevelRepeatDim v => PrimValue.short v
  | .BlackLevel v => PrimValue.rational v
  | .BlackLevelDeltaH v => PrimValue.srational v
  | .BlackLevelDeltaV v => PrimValue.srational v
  | .WhiteLevel v => PrimValue.long v
  | .DefaultScale v => PrimValue.rational v
  | .DefaultCropOrigin v => PrimValue.long v
  | .DefaultCropSize v => PrimValue.long v
  | .ColorMatrix1 v => PrimValue.srational v
  | .ColorMatrix2 v => PrimValue.srational v
  | .CameraCalibration1 v => PrimValue.srational v
  | .CameraCalibration2 v => PrimValue.srational v
  | .ReductionMatrix1 v => PrimValue.srational v
  | .ReductionMatrix2 v => PrimValue.srational v
  | .AnalogBalance v => PrimValue.rational v
  | .AsShotNeutral v => PrimValue.short v
  | .AsShotWhiteXY v => PrimValue.rational v
  | .BaselineExposure v => PrimValue.srational v
  | .BaselineNoise v => PrimValue.rational v
  | .BaselineSharpness v => PrimValue.rational v
  | .BayerGreenSplit v => PrimValue.long v
  | .LinearResponseLimit v => PrimValue.rational v
  | .CameraSerialNumber v => PrimValue.ascii v
  | .LensInfo v => PrimValue.rational v
  | .ChromaBlurRadius v => PrimValue.rational v
  | .AntiAliasStrength v => PrimValue.rational v
  | .ShadowScale v => PrimValue.srational v
  | .DNGPrivateData v => PrimValue.byte v
  | .MakerNoteSafety v => PrimValue.short v
  | .CalibrationIlluminant1 v => PrimValue.short v
  | .CalibrationIlluminant2 v => PrimValue.short v
  | .BestQualityScale v => PrimValue.rational v
  | .RawDataUniqueID v => PrimValue.byte v
  | .OriginalRawFileName v => PrimValue.byte v
  | .OriginalRawFileData v => PrimValue.undefined v
  | .ActiveArea v => PrimValue.long v
  | .MaskedAreas v => PrimValue.long v
  | .AsShotICCProfile v => PrimValue.undefined v
  | .AsShotPreProfileMatrix v => PrimValue.srational v
  | .CurrentICCProfile v => PrimValue.undefined v
  | .CurrentPreProfileMatrix v => PrimValue.srational v
  | .ColorimetricReference v => PrimValue.short v
  | .CameraCalibrationSignature v => PrimValue.byte v
  | .ProfileCalibrationSignature v => PrimValue.byte v
  | .ExtraCameraProfiles v => PrimValue.long v
  | .AsShotProfileName v => PrimValue.byte v
  | .NoiseReductionApplied v => PrimValue.rational v
  | .ProfileName v => PrimValue.byte v
  | .ProfileHueSatMapDims v => PrimValue.long v
  | .ProfileHueSatMapData1 v => PrimValue.float v
  | .ProfileHueSatMapData2 v => PrimValue.float v
  | .ProfileToneCurve v => PrimValue.float v
  | .ProfileEmbedPolicy v => PrimValue.long v
  | .ProfileCopyright v => PrimValue.byte v
  | .ForwardMatrix1 v => PrimValue.srational v
  | .ForwardMatrix2 v => PrimValue.srational v
  | .PreviewApplicationName v => PrimValue.byte v
  | .PreviewApplicationVersion v => PrimValue.byte v
  | .PreviewSettingsName v => PrimValue.byte v
  | .PreviewSettingsDigest v => PrimValue.byte v
  | .PreviewColorSpace v => PrimValue.long v
  | .PreviewDateTime v => PrimValue.ascii v
  | .RawImageDigest v => PrimValue.undefined v
  | .OriginalRawFileDigest v => PrimValue.undefined v
  | .SubTileBlockSize v => PrimValue.long v
  | .RowInterleaveFactor v => PrimValue.long v
  | .ProfileLookTableDims v => PrimValue.long v
  | .ProfileLookTableData v => PrimValue.float v
  | .OpcodeList1 v => PrimValue.undefined v
  | .OpcodeList2 v => PrimValue.undefined v
  | .OpcodeList3 v => PrimValue.undefined v
  | .NoiseProfile v => PrimValue.double v
  | .TimeCodes v => PrimValue.byte v
  | .FrameRate v => PrimValue.srational v
  | .TStop v => PrimValue.srational v
  | .ReelName v => PrimValue.ascii v
  | .CameraLabel v => PrimValue.ascii v
  | .OriginalDefaultFinalSize v => PrimValue.long v
  | .OriginalBestQualityFinalSize v => PrimValue.long v
  | .OriginalDefaultCropSize v => PrimValue.long v
  | .ProfileHueSatMapEncoding v => PrimValue.long v
  | .ProfileLookTableEncoding v => PrimValue.long v
  | .BaselineExposureOffset v => PrimValue.srational v
  | .DefaultBlackRender v => PrimValue.long v
  | .NewRawImageDigest v => PrimValue.byte v
  | .RawToPreviewGain v => PrimValue.double v
  | .DefaultUserCrop v => PrimValue.rational v
  | .DepthFormat v => PrimValue.short v
  | .DepthNear v => PrimValue.rational v
  | .DepthFar v => PrimValue.rational v
  | .DepthUnits v => PrimValue.short v
  | .DepthMeasureType v => PrimValue.short v
  | .EnhanceParams v => PrimValue.ascii v
  | .ProfileGainTableMap v => PrimValue.undefined v
  | .SemanticName v => PrimValue.ascii v
  | .SemanticInstanceID v => PrimValue.ascii v
  | .CalibrationIlluminant3 v => PrimValue.short v
  | .CameraCalibration3 v => PrimValue.srational v
  | .ColorMatrix3 v => PrimValue.srational v
  | .ForwardMatrix3 v => PrimValue.srational v
  | .IlluminantData1 v => PrimValue.undefined v
  | .IlluminantData2 v => PrimValue.undefined v
  | .IlluminantData3 v => PrimValue.undefined v
  | .MaskSubArea v => PrimValue.long v
  | .ProfileHueSatMapData3 v => PrimValue.float v
  | .ReductionMatrix3 v => PrimValue.srational v
  | .RGBTables v => PrimValue.undefined v
  | .ProfileGainTableMap2 v => PrimValue.undefined v
  | .ColumnInterleaveFactor v => PrimValue.long v
  | .ImageSequenceInfo v => PrimValue.undefined v
  | .ImageStats v => PrimValue.undefined v
  | .ProfileDynamicRange v => PrimValue.undefined v
  | .ProfileGroupName v => PrimValue.ascii v
  | .JXLDistance v => PrimValue.float v
  | .JXLEffort v => PrimValue.long v
  | .JXLDecodeSpeed v => PrimValue.long v

/-- The position of a variant in the source-order registry. -/
def Image.idx : Image → Nat
  | .ProcessingSoftware _ => 0
  | .NewSubfileType _ => 1
  | .SubfileType _ => 2
  | .ImageWidth _ => 3
  | .ImageLength _ => 4
  | .BitsPerSample _ => 5
  | .Compression _ => 6
  | .PhotometricInterpretation _ => 7
  | .Thresholding _ => 8
  | .CellWidth _ => 9
  | .CellLength _ => 10
  | .FillOrder _ => 11
  | .DocumentName _ => 12
  | .ImageDescription _ => 13
  | .Make _ => 14
  | .Model _ => 15
  | .StripOffsets _ => 16
  | .Orientation _ => 17
  | .SamplesPerPixel _ => 18
  | .RowsPerStrip _ => 19
  | .StripByteCounts _ => 20
  | .XResolution _ => 21
  | .YResolution _ => 22
  | .PlanarConfiguration _ => 23
  | .PageName _ => 24
  | .XPosition _ => 25
  | .YPosition _ => 26
  | .GrayResponseUnit _ => 27
  | .GrayResponseCurve _ => 28
  | .T4Options _ => 29
  | .T6Options _ => 30
  | .ResolutionUnit _ => 31
  | .PageNumber _ => 32
  | .TransferFunction _ => 33
  | .Software _ => 34
  | .DateTime _ => 35
  | .Artist _ => 36
  | .HostComputer _ => 37
  | .Predictor _ => 38
  | .WhitePoint _ => 39
  | .PrimaryChromaticities _ => 40
  | .ColorMap _ => 41
  | .HalftoneHints _ => 42
  | .TileWidth _ => 43
  | .TileLength _ => 44
  | .TileOffsets _ => 45
  | .TileByteCounts _ => 46
  | .SubIFDs _ => 47
  | .InkSet _ => 48
  | .InkNames _ => 49
  | .NumberOfInks _ => 50
  | .DotRange _ => 51
  | .TargetPrinter _ => 52
  | .ExtraSamples _ => 53
  | .SampleFormat _ => 54
  | .SMinSampleValue _ => 55
  | .SMaxSampleValue _ => 56
  | .TransferRange _ => 57
  | .ClipPath _ => 58
  | .XClipPathUnits _ => 59
  | .YClipPathUnits _ => 60
  | .Indexed _ => 61
  | .JPEGTables _ => 62
  | .OPIProxy _ => 63
  | .JPEGProc _ => 64
  | .JPEGInterchangeFormat _ => 65
  | .JPEGInterchangeFormatLength _ => 66
  | .JPEGRestartInterval _ => 67
  | .JPEGLosslessPredictors _ => 68
  | .JPEGPointTransforms _ => 69
  | .JPEGQTables _ => 70
  | .JPEGDCTables _ => 71
  | .JPEGACTables _ => 72
  | .YCbCrCoefficients _ => 73
  | .YCbCrSubSampling _ => 74
  | .YCbCrPositioning _ => 75
  | .ReferenceBlackWhite _ => 76
  | .XMLPacket _ => 77
  | .Rating _ => 78
  | .RatingPercent _ => 79
  | .VignettingCorrParams _ => 80
  | .ChromaticAberrationCorrParams _ => 81
  | .DistortionCorrParams _ => 82
  | .ImageID _ => 83
  | .CFARepeatPatternDim _ => 84
  | .CFAPattern _ => 85
  | .BatteryLevel _ => 86
  | .Copyright _ => 87
  | .ExposureTime _ => 88
  | .FNumber _ => 89
  | .IPTCNAA _ => 90
  | .ImageResources _ => 91
  | .ExifTag _ => 92
  | .InterColorProfile _ => 93
  | .ExposureProgram _ => 94
  | .SpectralSensitivity _ => 95
  | .GPSTag _ => 96
  | .ISOSpeedRatings _ => 97
  | .OECF _ => 98
  | .Interlace _ => 99
  | .TimeZoneOffset _ => 100
  | .SelfTimerMode _ => 101
  | .DateTimeOriginal _ => 102
  | .CompressedBitsPerPixel _ => 103
  | .ShutterSpeedValue _ => 104
  | .ApertureValue _ => 105
  | .BrightnessValue _ => 106
  | .ExposureBiasValue _ => 107
  | .MaxApertureValue _ => 108
  | .SubjectDistance _ => 109
  | .MeteringMode _ => 110
  | .LightSource _ => 111
  | .Flash _ => 112
  | .FocalLength _ => 113
  | .FlashEnergy _ => 114
  | .SpatialFrequencyResponse _ => 115
  | .Noise _ => 116
  | .FocalPlaneXResolution _ => 117
  | .FocalPlaneYResolution _ => 118
  | .FocalPlaneResolutionUnit _ => 119
  | .ImageNumber _ => 120
  | .SecurityClassification _ => 121
  | .ImageHistory _ => 122
  | .SubjectLocation _ => 123
  | .ExposureIndex _ => 124
  | .TIFFEPStandardID _ => 125
  | .SensingMethod _ => 126
  | .XPTitle _ => 127
  | .XPComment _ => 128
  | .XPAuthor _ => 129
  | .XPKeywords _ => 130
  | .XPSubject _ => 131
  | .PrintImageMatching _ => 132
  | .DNGVersion _ => 133
  | .DNGBackwardVersion _ => 134
  | .UniqueCameraModel _ => 135
  | .LocalizedCameraModel _ => 136
  | .CFAPlaneColor _ => 137
  | .CFALayout _ => 138
  | .LinearizationTable _ => 139
  | .BlackLevelRepeatDim _ => 140
  | .BlackLevel _ => 141
  | .BlackLevelDeltaH _ => 142
  | .BlackLevelDeltaV _ => 143
  | .WhiteLevel _ => 144
  | .DefaultScale _ => 145
  | .DefaultCropOrigin _ => 146
  | .DefaultCropSize _ => 147
  | .ColorMatrix1 _ => 148
  | .ColorMatrix2 _ => 149
  | .CameraCalibration1 _ => 150
  | .CameraCalibration2 _ => 151
  | .ReductionMatrix1 _ => 152
  | .ReductionMatrix2 _ => 153
  | .AnalogBalance _ => 154
  | .AsShotNeutral _ => 155
  | .AsShotWhiteXY _ => 156
  | .BaselineExposure _ => 157
  | .BaselineNoise _ => 158
  | .BaselineSharpness _ => 159
  | .BayerGreenSplit _ => 160
  | .LinearResponseLimit _ => 161
  | .CameraSerialNumber _ => 162
  | .LensInfo _ => 163
  | .ChromaBlurRadius _ => 164
  | .AntiAliasStrength _ => 165
  | .ShadowScale _ => 166
  | .DNGPrivateData _ => 167
  | .MakerNoteSafety _ => 168
  | .CalibrationIlluminant1 _ => 169
  | .CalibrationIlluminant2 _ => 170
  | .BestQualityScale _ => 171
  | .RawDataUniqueID _ => 172
  | .OriginalRawFileName _ => 173
  | .OriginalRawFileData _ => 174
  | .ActiveArea _ => 175
  | .MaskedAreas _ => 176
  | .AsShotICCProfile _ => 177
  | .AsShotPreProfileMatrix _ => 178
  | .CurrentICCProfile _ => 179
  | .CurrentPreProfileMatrix _ => 180
  | .ColorimetricReference _ => 181
  | .CameraCalibrationSignature _ => 182
  | .ProfileCalibrationSignature _ => 183
  | .ExtraCameraProfiles _ => 184
  | .AsShotProfileName _ => 185
  | .NoiseReductionApplied _ => 186
  | .ProfileName _ => 187
  | .ProfileHueSatMapDims _ => 188
  | .ProfileHueSatMapData1 _ => 189
  | .ProfileHueSatMapData2 _ => 190
  | .ProfileToneCurve _ => 191
  | .ProfileEmbedPolicy _ => 192
  | .ProfileCopyright _ => 193
  | .ForwardMatrix1 _ => 194
  | .ForwardMatrix2 _ => 195
  | .PreviewApplicationName _ => 196
  | .PreviewApplicationVersion _ => 197
  | .PreviewSettingsName _ => 198
  | .PreviewSettingsDigest _ => 199
  | .PreviewColorSpace _ => 200
  | .PreviewDateTime _ => 201
  | .RawImageDigest _ => 202
  | .OriginalRawFileDigest _ => 203
  | .SubTileBlockSize _ => 204
  | .RowInterleaveFactor _ => 205
  | .ProfileLookTableDims _ => 206
  | .ProfileLookTableData _ => 207
  | .OpcodeList1 _ => 208
  | .OpcodeList2 _ => 209
  | .OpcodeList3 _ => 210
  | .NoiseProfile _ => 211
  | .TimeCodes _ => 212
  | .FrameRate _ => 213
  | .TStop _ => 214
  | .ReelName _ => 215
  | .CameraLabel _ => 216
  | .OriginalDefaultFinalSize _ => 217
  | .OriginalBestQualityFinalSize _ => 218
  | .OriginalDefaultCropSize _ => 219
  | .ProfileHueSatMapEncoding _ => 220
  | .ProfileLookTableEncoding _ => 221
  | .BaselineExposureOffset _ => 222
  | .DefaultBlackRender _ => 223
  | .NewRawImageDigest _ => 224
  | .RawToPreviewGain _ => 225
  | .DefaultUserCrop _ => 226
  | .DepthFormat _ => 227
  | .DepthNear _ => 228
  | .DepthFar _ => 229
  | .DepthUnits _ => 230
  | .DepthMeasureType _ => 231
  | .EnhanceParams _ => 232
  | .ProfileGainTableMap _ => 233
  | .SemanticName _ => 234
  | .SemanticInstanceID _ => 235
  | .CalibrationIlluminant3 _ => 236
  | .CameraCalibration3 _ => 237
  | .ColorMatrix3 _ => 238
  | .ForwardMatrix3 _ => 239
  | .IlluminantData1 _ => 240
  | .IlluminantData2 _ => 241
  | .IlluminantData3 _ => 242
  | .MaskSubArea _ => 243
  | .ProfileHueSatMapData3 _ => 244
  | .ReductionMatrix3 _ => 245
  | .RGBTables _ => 246
  | .ProfileGainTableMap2 _ => 247
  | .ColumnInterleaveFactor _ => 248
  | .ImageSequenceInfo _ => 249
  | .ImageStats _ => 250
  | .ProfileDynamicRange _ => 251
  | .ProfileGroupName _ => 252
  | .JXLDistance _ => 253
  | .JXLEffort _ => 254
  | .JXLDecodeSpeed _ => 255

/-- The registry as data: for every variant, in source order, its tag
code, field name and declared payload kind. -/
def Image.registry : List (Nat × String × PrimType) :=
  [(0x000B, "ProcessingSoftware", PrimType.ascii),
    (0x00FE, "NewSubfileType", PrimType.long),
    (0x00FF, "SubfileType", PrimType.short),
    (0x0100, "ImageWidth", PrimType.long),
    (0x0101, "ImageLength", PrimType.long),
    (0x0102, "BitsPerSample", PrimType.short),
    (0x0103, "Compression", PrimType.short),
    (0x0106, "PhotometricInterpretation", PrimType.short),
    (0x0107, "Thresholding", PrimType.short),
    (0x0108, "CellWidth", PrimType.short),
    (0x0109, "CellLength", PrimType.short),
    (0x010A, "FillOrder", PrimType.short),
    (0x010D, "DocumentName", PrimType.ascii),
    (0x010E, "ImageDescription", PrimType.ascii),
    (0x010F, "Make", PrimType.ascii),
    (0x0110, "Model", PrimType.ascii),
    (0x0111, "StripOffsets", PrimType.long),
    (0x0112, "Orientation", PrimType.short),
    (0x0115, "SamplesPerPixel", PrimType.short),
    (0x0116, "RowsPerStrip", PrimType.long),
    (0x0117, "StripByteCounts", PrimType.long),
    (0x011A, "XResolution", PrimType.rational),
    (0x011B, "YResolution", PrimType.rational),
    (0x011C, "PlanarConfiguration", PrimType.short),
    (0x011D, "PageName", PrimType.ascii),
    (0x011E, "XPosition", PrimType.rational),
    (0x011F, "YPosition", PrimType.rational),
    (0x0122, "GrayResponseUnit", PrimType.short),
    (0x0123, "GrayResponseCurve", PrimType.short),
    (0x0124, "T4Options", PrimType.long),
    (0x0125, "T6Options", PrimType.long),
    (0x0128, "ResolutionUnit", PrimType.short),
    (0x0129, "PageNumber", PrimType.short),
    (0x012D, "TransferFunction", PrimType.short),
    (0x0131, "Software", PrimType.ascii),
    (0x0132, "DateTime", PrimType.ascii),
    (0x013B, "Artist", PrimType.ascii),
    (0x013C, "HostComputer", PrimType.ascii),
    (0x013D, "Predictor", PrimType.short),
    (0x013E, "WhitePoint", PrimType.rational),
    (0x013F, "PrimaryChromaticities", PrimType.rational),
    (0x0140, "ColorMap", PrimType.short),
    (0x0141, "HalftoneHints", PrimType.short),
    (0x0142, "TileWidth", PrimType.long),
    (0x0143, "TileLength", PrimType.long),
    (0x0144, "TileOffsets", PrimType.short),
    (0x0145, "TileByteCounts", PrimType.long),
    (0x014A, "SubIFDs", PrimType.long),
    (0x014C, "InkSet", PrimType.short),
    (0x014D, "InkNames", PrimType.ascii),
    (0x014E, "NumberOfInks", PrimType.short),
    (0x0150, "DotRange", PrimType.byte),
    (0x0151, "TargetPrinter", PrimType.ascii),
    (0x0152, "ExtraSamples", PrimType.short),
    (0x0153, "SampleFormat", PrimType.short),
    (0x0154, "SMinSampleValue", PrimType.short),
    (0x0155, "SMaxSampleValue", PrimType.short),
    (0x0156, "TransferRange", PrimType.short),
    (0x0157, "ClipPath", PrimType.byte),
    (0x0158, "XClipPathUnits", PrimType.sshort),
    (0x0159, "YClipPathUnits", PrimType.sshort),
    (0x015A, "Indexed", PrimType.short),
    (0x015B, "JPEGTables", PrimType.undefined),
    (0x015F, "OPIProxy", PrimType.short),
    (0x0200, "JPEGProc", PrimType.long),
    (0x0201, "JPEGInterchangeFormat", PrimType.long),
    (0x0202, "JPEGInterchangeFormatLength", PrimType.long),
    (0x0203, "JPEGRestartInterval", PrimType.short),
    (0x0205, "JPEGLosslessPredictors", PrimType.short),
    (0x0206, "JPEGPointTransforms", PrimType.short),
    (0x0207, "JPEGQTables", PrimType.long),
    (0x0208, "JPEGDCTables", PrimType.long),
    (0x0209, "JPEGACTables", PrimType.long),
    (0x0211, "YCbCrCoefficients", PrimType.rational),
    (0x0212, "YCbCrSubSampling", PrimType.short),
    (0x0213, "YCbCrPositioning", PrimType.short),
    (0x0214, "ReferenceBlackWhite", PrimType.rational),
    (0x02BC, "XMLPacket", PrimType.byte),
    (0x4746, "Rating", PrimType.short),
    (0x4749, "RatingPercent", PrimType.short),
    (0x7032, "VignettingCorrParams", PrimType.sshort),
    (0x7035, "ChromaticAberrationCorrParams", PrimType.sshort),
    (0x7037, "DistortionCorrParams", PrimType.sshort),
    (0x800D, "ImageID", PrimType.ascii),
    (0x828D, "CFARepeatPatternDim", PrimType.short),
    (0x828E, "CFAPattern", PrimType.byte),
    (0x828F, "BatteryLevel", PrimType.rational),
    (0x8298, "Copyright", PrimType.ascii),
    (0x829A, "ExposureTime", PrimType.rational),
    (0x829D, "FNumber", PrimType.rational),
    (0x83BB, "IPTCNAA", PrimType.long),
    (0x8649, "ImageResources", PrimType.byte),
    (0x8769, "ExifTag", PrimType.long),
    (0x8773, "InterColorProfile", PrimType.undefined),
    (0x8822, "ExposureProgram", PrimType.short),
    (0x8824, "SpectralSensitivity", PrimType.ascii),
    (0x8825, "GPSTag", PrimType.long),
    (0x8827, "ISOSpeedRatings", PrimType.short),
    (0x8828, "OECF", PrimType.undefined),
    (0x8829, "Interlace", PrimType.short),
    (0x882A, "TimeZoneOffset", PrimType.sshort),
    (0x882B, "SelfTimerMode", PrimType.short),
    (0x9003, "DateTimeOriginal", PrimType.ascii),
    (0x9102, "CompressedBitsPerPixel", PrimType.rational),
    (0x9201, "ShutterSpeedValue", PrimType.srational),
    (0x9202, "ApertureValue", PrimType.rational),
    (0x9203, "BrightnessValue", PrimType.srational),
    (0x9204, "ExposureBiasValue", PrimType.srational),
    (0x9205, "MaxApertureValue", PrimType.rational),
    (0x9206, "SubjectDistance", PrimType.srational),
    (0x9207, "MeteringMode", PrimType.short),
    (0x9208, "LightSource", PrimType.short),
    (0x9209, "Flash", PrimType.short),
    (0x920A, "FocalLength", PrimType.rational),
    (0x920B, "FlashEnergy", PrimType.rational),
    (0x920C, "SpatialFrequencyResponse", PrimType.undefined),
    (0x920D, "Noise", PrimType.undefined),
    (0x920E, "FocalPlaneXResolution", PrimType.rational),
    (0x920F, "FocalPlaneYResolution", PrimType.rational),
    (0x9210, "FocalPlaneResolutionUnit", PrimType.short),
    (0x9211, "ImageNumber", PrimType.long),
    (0x9212, "SecurityClassification", PrimType.ascii),
    (0x9213, "ImageHistory", PrimType.ascii),
    (0x9214, "SubjectLocation", PrimType.short),
    (0x9215, "ExposureIndex", PrimType.rational),
    (0x9216, "TIFFEPStandardID", PrimType.byte),
    (0x9217, "SensingMethod", PrimType.short),
    (0x9C9B, "XPTitle", PrimType.byte),
    (0x9C9C, "XPComment", PrimType.byte),
    (0x9C9D, "XPAuthor", PrimType.byte),
    (0x9C9E, "XPKeywords", PrimType.byte),
    (0x9C9F, "XPSubject", PrimType.byte),
    (0xC4A5, "PrintImageMatching", PrimType.undefined),
    (0xC612, "DNGVersion", PrimType.byte),
    (0xC613, "DNGBackwardVersion", PrimType.byte),
    (0xC614, "UniqueCameraModel", PrimType.ascii),
    (0xC615, "LocalizedCameraModel", PrimType.byte),
    (0xC616, "CFAPlaneColor", PrimType.byte),
    (0xC617, "CFALayout", PrimType.short),
    (0xC618, "LinearizationTable", PrimType.short),
    (0xC619, "BlackLevelRepeatDim", PrimType.short),
    (0xC61A, "BlackLevel", PrimType.rational),
    (0xC61B, "BlackLevelDeltaH", PrimType.srational),
    (0xC61C, "BlackLevelDeltaV", PrimType.srational),
    (0xC61D, "WhiteLevel", PrimType.long),
    (0xC61E, "DefaultScale", PrimType.rational),
    (0xC61F, "DefaultCropOrigin", PrimType.long),
    (0xC620, "DefaultCropSize", PrimType.long),
    (0xC621, "ColorMatrix1", PrimType.srational),
    (0xC622, "ColorMatrix2", PrimType.srational),
    (0xC623, "CameraCalibration1", PrimType.srational),
    (0xC624, "CameraCalibration2", PrimType.srational),
    (0xC625, "ReductionMatrix1", PrimType.srational),
    (0xC626, "ReductionMatrix2", PrimType.srational),
    (0xC627, "AnalogBalance", PrimType.rational),
    (0xC628, "AsShotNeutral", PrimType.short),
    (0xC629, "AsShotWhiteXY", PrimType.rational),
    (0xC62A, "BaselineExposure", PrimType.srational),
    (0xC62B, "BaselineNoise", PrimType.rational),
    (0xC62C, "BaselineSharpness", PrimType.rational),
    (0xC62D, "BayerGreenSplit", PrimType.long),
    (0xC62E, "LinearResponseLimit", PrimType.rational),
    (0xC62F, "CameraSerialNumber", PrimType.ascii),
    (0xC630, "LensInfo", PrimType.rational),
    (0xC631, "ChromaBlurRadius", PrimType.rational),
    (0xC632, "AntiAliasStrength", PrimType.rational),
    (0xC633, "ShadowScale", PrimType.srational),
    (0xC634, "DNGPrivateData", PrimType.byte),
    (0xC635, "MakerNoteSafety", PrimType.short),
    (0xC65A, "CalibrationIlluminant1", PrimType.short),
    (0xC65B, "CalibrationIlluminant2", PrimType.short),
    (0xC65C, "BestQualityScale", PrimType.rational),
    (0xC65D, "RawDataUniqueID", PrimType.byte),
    (0xC68B, "OriginalRawFileName", PrimType.byte),
    (0xC68C, "OriginalRawFileData", PrimType.undefined),
    (0xC68D, "ActiveArea", PrimType.long),
    (0xC68E, "MaskedAreas", PrimType.long),
    (0xC68F, "AsShotICCProfile", PrimType.undefined),
    (0xC690, "AsShotPreProfileMatrix", PrimType.srational),
    (0xC691, "CurrentICCProfile", PrimType.undefined),
    (0xC692, "CurrentPreProfileMatrix", PrimType.srational),
    (0xC6BF, "ColorimetricReference", PrimType.short),
    (0xC6F3, "CameraCalibrationSignature", PrimType.byte),
    (0xC6F4, "ProfileCalibrationSignature", PrimType.byte),
    (0xC6F5, "ExtraCameraProfiles", PrimType.long),
    (0xC6F6, "AsShotProfileName", PrimType.byte),
    (0xC6F7, "NoiseReductionApplied", PrimType.rational),
    (0xC6F8, "ProfileName", PrimType.byte),
    (0xC6F9, "ProfileHueSatMapDims", PrimType.long),
    (0xC6FA, "ProfileHueSatMapData1", PrimType.float),
    (0xC6FB, "ProfileHueSatMapData2", PrimType.float),
    (0xC6FC, "ProfileToneCurve", PrimType.float),
    (0xC6FD, "ProfileEmbedPolicy", PrimType.long),
    (0xC6FE, "ProfileCopyright", PrimType.byte),
    (0xC714, "ForwardMatrix1", PrimType.srational),
    (0xC715, "ForwardMatrix2", PrimType.srational),
    (0xC716, "PreviewApplicationName", PrimType.byte),
    (0xC717, "PreviewApplicationVersion", PrimType.byte),
    (0xC718, "PreviewSettingsName", PrimType.byte),
    (0xC719, "PreviewSettingsDigest", PrimType.byte),
    (0xC71A, "PreviewColorSpace", PrimType.long),
    (0xC71B, "PreviewDateTime", PrimType.ascii),
    (0xC71C, "RawImageDigest", PrimType.undefined),
    (0xC71D, "OriginalRawFileDigest", PrimType.undefined),
    (0xC71E, "SubTileBlockSize", PrimType.long),
    (0xC71F, "RowInterleaveFactor", PrimType.long),
    (0xC725, "ProfileLookTableDims", PrimType.long),
    (0xC726, "ProfileLookTableData", PrimType.float),
    (0xC740, "OpcodeList1", PrimType.undefined),
    (0xC741, "OpcodeList2", PrimType.undefined),
    (0xC74E, "OpcodeList3", PrimType.undefined),
    (0xC761, "NoiseProfile", PrimType.double),
    (0xC763, "TimeCodes", PrimType.byte),
    (0xC764, "FrameRate", PrimType.srational),
    (0xC772, "TStop", PrimType.srational),
    (0xC789, "ReelName", PrimType.ascii),
    (0xC7A1, "CameraLabel", PrimType.ascii),
    (0xC791, "OriginalDefaultFinalSize", PrimType.long),
    (0xC792, "OriginalBestQualityFinalSize", PrimType.long),
    (0xC793, "OriginalDefaultCropSize", PrimType.long),
    (0xC7A3, "ProfileHueSatMapEncoding", PrimType.long),
    (0xC7A4, "ProfileLookTableEncoding", PrimType.long),
    (0xC7A5, "BaselineExposureOffset", PrimType.srational),
    (0xC7A6, "DefaultBlackRender", PrimType.long),
    (0xC7A7, "NewRawImageDigest", PrimType.byte),
    (0xC7A8, "RawToPreviewGain", PrimType.double),
    (0xC7B5, "DefaultUserCrop", PrimType.rational),
    (0xC7E9, "DepthFormat", PrimType.short),
    (0xC7EA, "DepthNear", PrimType.rational),
    (0xC7EB, "DepthFar", PrimType.rational),
    (0xC7EC, "DepthUnits", PrimType.short),
    (0xC7ED, "DepthMeasureType", PrimType.short),
    (0xC7EE, "EnhanceParams", PrimType.ascii),
    (0xCD2D, "ProfileGainTableMap", PrimType.undefined),
    (0xCD2E, "SemanticName", PrimType.ascii),
    (0xCD30, "SemanticInstanceID", PrimType.ascii),
    (0xCD31, "CalibrationIlluminant3", PrimType.short),
    (0xCD32, "CameraCalibration3", PrimType.srational),
    (0xCD33, "ColorMatrix3", PrimType.srational),
    (0xCD34, "ForwardMatrix3", PrimType.srational),
    (0xCD35, "IlluminantData1", PrimType.undefined),
    (0xCD36, "IlluminantData2", PrimType.undefined),
    (0xCD37, "IlluminantData3", PrimType.undefined),
    (0xCD38, "MaskSubArea", PrimType.long),
    (0xCD39, "ProfileHueSatMapData3", PrimType.float),
    (0xCD3A, "ReductionMatrix3", PrimType.srational),
    (0xCD3B, "RGBTables", PrimType.undefined),
    (0xCD40, "ProfileGainTableMap2", PrimType.undefined),
    (0xCD43, "ColumnInterleaveFactor", PrimType.long),
    (0xCD44, "ImageSequenceInfo", PrimType.undefined),
    (0xCD46, "ImageStats", PrimType.undefined),
    (0xCD47, "ProfileDynamicRange", PrimType.undefined),
    (0xCD48, "ProfileGroupName", PrimType.ascii),
    (0xCD49, "JXLDistance", PrimType.float),
    (0xCD4A, "JXLEffort", PrimType.long),
    (0xCD4B, "JXLDecodeSpeed", PrimType.long)]

/-- All 256 tag codes of the registry, in source order. -/
def Image.codes : List Nat :=
  Image.registry.map fun e => e.1

/-- The declared payload kind registered for a tag code, `none` for
unknown codes: the registry lookup of spec §4.2, restricted to the
declared type, which is all the decoder needs. -/
def typeOfCode (c : Nat) : Option PrimType :=
  (Image.registry.find? fun e => c == e.1).map fun e => e.2.2


/-- Derived `PartialEq` for `Image` (src/tag/image.rs:8).  On a
`#[repr(u16)]` enum with explicit discriminants the derive first compares
the discriminants — here the tag codes, which Rust requires to be pairwise
distinct — and then, for one and the same variant, compares the payloads
with the payload type's own equality; `PrimValue.beq` is exactly that
payload comparison, and on equal-discriminant (hence identical) variants the
payloads have the same kind. -/
def Image.beq (i j : Image) : Bool :=
  Image.code i == Image.code j && PrimValue.beq (Image.payload i) (Image.payload j)

/-! ### The Tag façade (`src/tag.rs`) -/

/-- `pub enum Tag` (src/tag.rs:10): one variant per IFD namespace; only the
`Image` variant wraps its namespace's decoded field value, the other five
namespaces are payload-free markers. -/
inductive Tag where
  | Image (i : Image)
  | Photo
  | Iop
  | GPSInfo
  | MpfInfo
  | Thumbnail

/-- The six IFD namespaces of the data model (spec §3): one per `Tag`
variant. -/
inductive Namespace where
  | image
  | photo
  | iop
  | gpsInfo
  | mpfInfo
  | thumbnail
deriving DecidableEq

/-- Modelled from the spec: `namespace()` of §4.3 is not in src/; it is the
variant discriminant of `Tag` — which of the six namespaces a façade value
belongs to. -/
def Tag.namespaceOf : Tag → Namespace
  | .Image _ => .image
  | .Photo => .photo
  | .Iop => .iop
  | .GPSInfo => .gpsInfo
  | .MpfInfo => .mpfInfo
  | .Thumbnail => .thumbnail

/-- Derived `PartialEq` for `Tag` (src/tag.rs:9): same variant, equal
payload. -/
def Tag.beq : Tag → Tag → Bool
  | .Image i, .Image j => Image.beq i j
  | .Photo, .Photo => true
  | .Iop, .Iop => true
  | .GPSInfo, .GPSInfo => true
  | .MpfInfo, .MpfInfo => true
  | .Thumbnail, .Thumbnail => true
  | _, _ => false

/-- The tag code a façade value denotes: only the `Image` variant carries
one. -/
def Tag.fieldCode : Tag → Option Nat
  | .Image i => some (Image.code i)
  | _ => none

/-- The field payload a façade value carries: only the `Image` variant has
one. -/
def Tag.fieldPayload : Tag → Option PrimValue
  | .Image i => some (Image.payload i)
  | _ => none

/-- Equality of optional payloads, payloads compared by `PrimValue.beq`. -/
def optPayloadBeq : Option PrimValue → Option PrimValue → Bool
  | none, none => true
  | some a, some b => PrimValue.beq a b
  | _, _ => false

/-! ### Spec-modelled decoder and encoder (spec §4.2)

The crate itself contains no decode/encode yet (the spec describes them for
a future decoder built on the registry), so this part is modelled from the
spec: raw field bytes are a byte list, a fixed-width numeric unit occupies
`width` bytes (a `Rational`/`SRational` unit is its 8-byte block, the two
4-byte halves in one value), a numeric field decodes as the sequence of its
units with a `Truncated` error on a length that is not an exact multiple,
`Ascii` strips exactly one trailing NUL, and `Undefined` is an identity
copy. -/

/-- Modelled from the spec: the error taxonomy of §7 (`UnknownField` is not
an error from decode; it is the `none` of the lookup). -/
inductive DecodeError where
  | typeMismatch
  | truncated
  | malformedText
deriving DecidableEq

/-- Modelled from the spec: a decoded field value — a sequence of
fixed-width numeric units, a text value (terminator already stripped), or
an identity copy of opaque bytes. -/
inductive FieldValue where
  | numeric (t : PrimType) (vs : List Nat)
  | text (bs : List Nat)
  | raw (bs : List Nat)
deriving DecidableEq

/-- The on-wire byte width of each fixed-width payload kind; `none` for the
variable-width kinds (`Ascii`, `Undefined`). -/
def PrimType.width : PrimType → Option Nat
  | .ascii => none
  | .byte => some 1
  | .double => some 8
  | .float => some 4
  | .long => some 4
  | .rational => some 8
  | .srational => some 8
  | .sshort => some 2
  | .short => some 2
  | .undefined => none

/-- A number as `w` little-endian base-256 bytes. -/
def toBytesLE : Nat → Nat → List Nat
  | 0, _ => []
  | w + 1, v => v % 256 :: toBytesLE w (v / 256)

/-- The number denoted by a little-endian base-256 byte list. -/
def fromBytesLE : List Nat → Nat
  | [] => 0
  | b :: bs => b + 256 * fromBytesLE bs

/-- Consume `w`-byte units from a byte list; `none` when a nonempty
remainder shorter than a unit is left (the `Truncated` case), fuel is the
list length. -/
def decodeNumsAux (w : Nat) : Nat → List Nat → Option (List Nat)
  | _, [] => some []
  | 0, _ :: _ => none
  | fuel + 1, b :: bs =>
      if w = 0 ∨ (b :: bs).length < w then none
      else
        match decodeNumsAux w fuel ((b :: bs).drop w) with
        | some vs => some (fromBytesLE ((b :: bs).take w) :: vs)
        | none => none

/-- The `w`-byte units of a byte list, `none` on a trailing remainder. -/
def decodeNums (w : Nat) (bs : List Nat) : Option (List Nat) :=
  decodeNumsAux w bs.length bs

/-- Modelled from the spec: `Ascii` decoding strips exactly one trailing
NUL if present; an empty payload is the empty string. -/
def stripNul (bs : List Nat) : List Nat :=
  if bs.getLast? = some 0 then bs.dropLast else bs

/-- Modelled from the spec: parse raw on-wire bytes according to a declared
payload kind (§4.2): numeric kinds decode as their unit sequence with
`Truncated` on a partial unit, `Ascii` strips one trailing NUL, `Undefined`
is an identity copy. -/
def decodePrim (t : PrimType) (raw : List Nat) : Except DecodeError FieldValue :=
  match PrimType.width t with
  | some w =>
      match decodeNums w raw with
      | some vs => Except.ok (FieldValue.numeric t vs)
      | none => Except.error DecodeError.truncated
  | none =>
      match t with
      | PrimType.undefined => Except.ok (FieldValue.raw raw)
      | _ => Except.ok (FieldValue.text (stripNul raw))

/-- Modelled from the spec: `encode` (§4.2), the inverse of decode —
numeric units re-serialize little-endian, text regains its single NUL
terminator, opaque bytes copy through. -/
def encodeValue : FieldValue → List Nat
  | FieldValue.numeric t vs => vs.flatMap (toBytesLE (PrimType.width t |>.getD 0))
  | FieldValue.text bs => bs ++ [0]
  | FieldValue.raw bs => bs

/-- Modelled from the spec: `decode(code, raw)` — look the code up in the
registry and parse `raw` by the declared payload kind; `none` for a code
the registry does not know (that case belongs to `lookup`, §4.2). -/
def decodeField (code : Nat) (raw : List Nat) : Option (Except DecodeError FieldValue) :=
  (typeOfCode code).map fun t => decodePrim t raw

/-- A well-formed synthetic payload of a declared kind: numeric units carry
the declared kind and fit in its width, text and opaque bytes are bytes. -/
def FieldValue.typedBy : FieldValue → PrimType → Bool
  | FieldValue.numeric t vs, u =>
      t == u && (match PrimType.width t with
        | some w => vs.all fun v => v < 256 ^ w
        | none => false)
  | FieldValue.text bs, u => u == PrimType.ascii && bs.all fun b => b < 256
  | FieldValue.raw bs, u => u == PrimType.undefined && bs.all fun b => b < 256

/-! ### Text helpers for the Ascii/UTF8 claims -/

/-- A string is 7-bit-clean: every character is an ASCII code point. -/
def isSevenBitAscii (s : String) : Bool :=
  s.toList.all fun c => c.toNat < 128

/-- A string ends in the NUL character. -/
def nulTerminated (s : String) : Bool :=
  s.toList.getLast? == some (Char.ofNat 0)

/-! ### Registry lemmas -/

/-- Reading the registry at a variant's source position returns that
variant's code, name and declared payload kind. -/
theorem registry_get (i : Image) :
    Image.registry.get? (Image.idx i) = some (Image.code i, Image.fieldName i, Image.primType i) := by
  cases i <;> rfl

/-- The code list at a variant's source position is that variant's code. -/
theorem codes_get (i : Image) : Image.codes.get? (Image.idx i) = some (Image.code i) := by
  rw [Image.codes, List.get?_map, registry_get]
  rfl

/-- Every variant's code is listed in `Image.codes`. -/
theorem code_mem_codes (i : Image) : Image.code i ∈ Image.codes :=
  List.get?_mem (codes_get i)

/-- The 256 codes of the registry are pairwise distinct. -/
theorem codes_nodup : Image.codes.Nodup := by
  decide

/-- In a list whose keys are pairwise distinct, `find?` keyed by the key of
a member entry returns exactly that entry. -/
theorem registry_find?_eq (key : Nat) :
    ∀ (l : List (Nat × String × PrimType)) (k : Nat) (a : Nat × String × PrimType),
      (l.map fun e => e.1).Nodup → l.get? k = some a → a.1 = key →
      l.find? (fun e => key == e.1) = some a := by
  intro l
  induction l with
  | nil =>
    intro k a _ hget _
    simp at hget
  | cons b tl ih =>
    intro k a hnd hget hkey
    rw [List.map_cons, List.nodup_cons] at hnd
    match k, hget with
    | 0, hget =>
      rw [List.get?_cons_zero, Option.some.injEq] at hget
      subst hget
      rw [List.find?_cons_of_pos]
      rw [hkey]
      exact beq_self_eq_true key
    | k + 1, hget =>
      rw [List.get?_cons_succ] at hget
      have hmem : a ∈ tl := List.get?_mem hget
      have hne : key ≠ b.1 := by
        intro h
        exact hnd.1 (h ▸ hkey ▸ List.mem_map_of_mem (fun e => e.1) hmem)
      rw [List.find?_cons_of_neg]
      · exact ih k a hnd.2 hget hkey
      · simp [hne]

/-- Looking a variant's code up in the registry returns that variant's
declared payload kind (`typeOfCode` is the spec's `lookup`, restricted to
the declared type). -/
theorem typeOfCode_code (i : Image) : typeOfCode (Image.code i) = some (Image.primType i) := by
  rw [typeOfCode, registry_find?_eq (Image.code i) Image.registry (Image.idx i)
    (Image.code i, Image.fieldName i, Image.primType i) codes_nodup (registry_get i) rfl]
  rfl

/-! ### Fraction lemmas: reduced-pair equality is cross-multiplication -/

/-- The reduced numerator is zero exactly when the input numerator is. -/
theorem Ratio.new_numer_eq_zero (n d : Nat) (hd : d ≠ 0) :
    (Ratio.new n d).numer = 0 ↔ n = 0 := by
  rw [Ratio.new]
  show n / Nat.gcd n d = 0 ↔ n = 0
  constructor
  · intro h
    have hdvd : Nat.gcd n d ∣ n := Nat.gcd_dvd_left n d
    have := Nat.div_mul_cancel hdvd
    rw [h, Nat.zero_mul] at this
    exact this.symm
  · intro h
    subst h
    rw [Nat.gcd_zero_left, Nat.zero_div]

/-- Two fractions with nonzero denominators have equal reduced forms exactly
when they cross-multiply equally. -/
theorem Ratio.new_eq_iff (n1 d1 n2 d2 : Nat) (h1 : d1 ≠ 0) (h2 : d2 ≠ 0) :
    Ratio.new n1 d1 = Ratio.new n2 d2 ↔ n1 * d2 = n2 * d1 := by
  have hg1 : Nat.gcd n1 d1 ≠ 0 := fun h => h1 (Nat.eq_zero_of_gcd_eq_zero_right h)
  have hg2 : Nat.gcd n2 d2 ≠ 0 := fun h => h2 (Nat.eq_zero_of_gcd_eq_zero_right h)
  have ha1 : n1 / Nat.gcd n1 d1 * Nat.gcd n1 d1 = n1 := Nat.div_mul_cancel (Nat.gcd_dvd_left n1 d1)
  have hb1 : d1 / Nat.gcd n1 d1 * Nat.gcd n1 d1 = d1 := Nat.div_mul_cancel (Nat.gcd_dvd_right n1 d1)
  have ha2 : n2 / Nat.gcd n2 d2 * Nat.gcd n2 d2 = n2 := Nat.div_mul_cancel (Nat.gcd_dvd_left n2 d2)
  have hb2 : d2 / Nat.gcd n2 d2 * Nat.gcd n2 d2 = d2 := Nat.div_mul_cancel (Nat.gcd_dvd_right n2 d2)
  have cop1 : Nat.Coprime (n1 / Nat.gcd n1 d1) (d1 / Nat.gcd n1 d1) :=
    Nat.coprime_div_gcd_div_gcd (Nat.pos_of_ne_zero hg1)
  have cop2 : Nat.Coprime (n2 / Nat.gcd n2 d2) (d2 / Nat.gcd n2 d2) :=
    Nat.coprime_div_gcd_div_gcd (Nat.pos_of_ne_zero hg2)
  rw [Ratio.new, Ratio.new, Ratio.mk.injEq]
  constructor
  · intro ⟨hn, hd⟩
    calc n1 * d2 = n1 / Nat.gcd n1 d1 * Nat.gcd n1 d1 * (d2 / Nat.gcd n2 d2 * Nat.gcd n2 d2) := by
          rw [ha1, hb2]
    _ = n2 / Nat.gcd n2 d2 * Nat.gcd n2 d2 * (d1 / Nat.gcd n1 d1 * Nat.gcd n1 d1) := by
          rw [hn, hd]; ring
    _ = n2 * d1 := by rw [ha2, hb1]
  · intro h
    have key : n1 / Nat.gcd n1 d1 * (d2 / Nat.gcd n2 d2) =
        n2 / Nat.gcd n2 d2 * (d1 / Nat.gcd n1 d1) := by
      apply Nat.eq_of_mul_eq_mul_left
        (Nat.mul_pos (Nat.pos_of_ne_zero hg1) (Nat.pos_of_ne_zero hg2))
      calc Nat.gcd n1 d1 * Nat.gcd n2 d2 * (n1 / Nat.gcd n1 d1 * (d2 / Nat.gcd n2 d2))
          = n1 / Nat.gcd n1 d1 * Nat.gcd n1 d1 * (d2 / Nat.gcd n2 d2 * Nat.gcd n2 d2) := by ring
      _ = n1 * d2 := by rw [ha1, hb2]
      _ = n2 * d1 := h
      _ = n2 / Nat.gcd n2 d2 * Nat.gcd n2 d2 * (d1 / Nat.gcd n1 d1 * Nat.gcd n1 d1) := by
            rw [ha2, hb1]
      _ = Nat.gcd n1 d1 * Nat.gcd n2 d2 * (n2 / Nat.gcd n2 d2 * (d1 / Nat.gcd n1 d1)) := by ring
    have hnum : n1 / Nat.gcd n1 d1 = n2 / Nat.gcd n2 d2 := by
      apply Nat.dvd_antisymm
      · exact Nat.Coprime.dvd_of_dvd_mul_right cop1 ⟨d2 / Nat.gcd n2 d2, key.symm⟩
      · exact Nat.Coprime.dvd_of_dvd_mul_right cop2 ⟨d1 / Nat.gcd n1 d1, key⟩
    refine ⟨hnum, ?_⟩
    by_cases hz : n1 / Nat.gcd n1 d1 = 0
    · have hz2 : n2 / Nat.gcd n2 d2 = 0 := hnum ▸ hz
      have e1 : d1 / Nat.gcd n1 d1 = 1 := (Nat.coprime_zero_left _).mp (hz ▸ cop1)
      have e2 : d2 / Nat.gcd n2 d2 = 1 := (Nat.coprime_zero_left _).mp (hz2 ▸ cop2)
      rw [e1, e2]
    · apply Nat.eq_of_mul_eq_mul_left (Nat.pos_of_ne_zero hz)
      calc n1 / Nat.gcd n1 d1 * (d1 / Nat.gcd n1 d1)
          = n2 / Nat.gcd n2 d2 * (d1 / Nat.gcd n1 d1) := by rw [hnum]
      _ = n1 / Nat.gcd n1 d1 * (d2 / Nat.gcd n2 d2) := key.symm
      _ = n1 / Nat.gcd n1 d1 * (d2 / Nat.gcd n2 d2) := rfl

/-- Equality of unsigned `Rational` values built from pairs with nonzero
denominators is exactly cross-multiplication. -/
theorem Rational.beq_new_iff (n1 d1 n2 d2 : Nat) (h1 : d1 ≠ 0) (h2 : d2 ≠ 0) :
    GenericFraction.beq (Rational.new n1 d1) (Rational.new n2 d2) = true ↔ n1 * d2 = n2 * d1 := by
  rw [Rational.new, if_neg h1, Rational.new, if_neg h2]
  show (if (Ratio.new n1 d1).numer == 0 && (Ratio.new n2 d2).numer == 0 then true
    else Sign.plus == Sign.plus && Ratio.new n1 d1 == Ratio.new n2 d2) = true ↔ _
  split
  case isTrue h =>
    rw [Bool.and_eq_true, beq_iff_eq, beq_iff_eq] at h
    have hn1 : n1 = 0 := (Ratio.new_numer_eq_zero n1 d1 h1).mp h.1
    have hn2 : n2 = 0 := (Ratio.new_numer_eq_zero n2 d2 h2).mp h.2
    subst hn1
    subst hn2
    simp
  case isFalse h =>
    rw [Bool.and_eq_true, beq_iff_eq, beq_iff_eq]
    rw [Ratio.new_eq_iff n1 d1 n2 d2 h1 h2]
    simp

/-! ### Two's-complement lemmas -/

/-- `SShort.toInt` is injective: distinct 16-bit patterns denote distinct
integers. -/
theorem sshort_toInt_inj (s t : SShort) (h : SShort.toInt s = SShort.toInt t) : s = t := by
  have hs := s.isLt
  have ht := t.isLt
  rw [SShort.toInt, SShort.toInt] at h
  apply Fin.ext
  split at h <;> split at h <;> omega

/-- Every `SShort` denotes an integer in the signed 16-bit range. -/
theorem sshort_toInt_range (s : SShort) : -(2 ^ 15) ≤ SShort.toInt s ∧ SShort.toInt s < 2 ^ 15 := by
  have hs := s.isLt
  rw [SShort.toInt]
  split <;> omega

/-- `SShort.toInt` on an explicitly built pattern. -/
theorem sshort_toInt_mk (v : Nat) (h : v < 2 ^ 16) :
    SShort.toInt ⟨v, h⟩ = if v < 2 ^ 15 then (v : Int) else (v : Int) - 2 ^ 16 := rfl

/-- Every integer in the signed 16-bit range is denoted by some `SShort`. -/
theorem sshort_toInt_surj (z : Int) (hlo : -(2 ^ 15) ≤ z) (hhi : z < 2 ^ 15) :
    ∃ s : SShort, SShort.toInt s = z := by
  refine ⟨⟨((z + 2 ^ 16).toNat) % 2 ^ 16, Nat.mod_lt _ (by norm_num)⟩, ?_⟩
  rw [sshort_toInt_mk]
  split <;> omega

/-- `SLong.toInt` is injective. -/
theorem slong_toInt_inj (s t : SLong) (h : SLong.toInt s = SLong.toInt t) : s = t := by
  have hs := s.isLt
  have ht := t.isLt
  rw [SLong.toInt, SLong.toInt] at h
  apply Fin.ext
  split at h <;> split at h <;> omega

/-- Every `SLong` denotes an integer in the signed 32-bit range. -/
theorem slong_toInt_range (s : SLong) : -(2 ^ 31) ≤ SLong.toInt s ∧ SLong.toInt s < 2 ^ 31 := by
  have hs := s.isLt
  rw [SLong.toInt]
  split <;> omega

/-- `SLong.toInt` on an explicitly built pattern. -/
theorem slong_toInt_mk (v : Nat) (h : v < 2 ^ 32) :
    SLong.toInt ⟨v, h⟩ = if v < 2 ^ 31 then (v : Int) else (v : Int) - 2 ^ 32 := rfl

/-- Every integer in the signed 32-bit range is denoted by some `SLong`. -/
theorem slong_toInt_surj (z : Int) (hlo : -(2 ^ 31) ≤ z) (hhi : z < 2 ^ 31) :
    ∃ s : SLong, SLong.toInt s = z := by
  refine ⟨⟨((z + 2 ^ 32).toNat) % 2 ^ 32, Nat.mod_lt _ (by norm_num)⟩, ?_⟩
  rw [slong_toInt_mk]
  split <;> omega

/-! ### Round-trip lemmas -/

/-- Serializing a number always yields exactly `w` bytes. -/
theorem length_toBytesLE (w : Nat) : ∀ v : Nat, (toBytesLE w v).length = w := by
  induction w with
  | zero => intro v; rfl
  | succ w ih =>
    intro v
    rw [toBytesLE, List.length_cons, ih]

/-- Serialized bytes are bytes. -/
theorem toBytesLE_lt (w : Nat) : ∀ (v : Nat), ∀ b ∈ toBytesLE w v, b < 256 := by
  induction w with
  | zero =>
    intro v b hb
    simp [toBytesLE] at hb
  | succ w ih =>
    intro v b hb
    rw [toBytesLE] at hb
    rcases List.mem_cons.mp hb with h | h
    · subst h
      exact Nat.mod_lt _ (by norm_num)
    · exact ih (v / 256) b h

/-- Deserializing the serialization of a `w`-byte number gives it back. -/
theorem fromBytesLE_toBytesLE (w : Nat) : ∀ v : Nat, v < 256 ^ w →
    fromBytesLE (toBytesLE w v) = v := by
  induction w with
  | zero =>
    intro v hv
    rw [pow_zero, Nat.lt_one_iff] at hv
    subst hv
    rfl
  | succ w ih =>
    intro v hv
    have hdiv : v / 256 < 256 ^ w := by
      rw [Nat.div_lt_iff_lt_mul (by norm_num : 0 < 256)]
      rw [pow_succ] at hv
      exact hv
    rw [toBytesLE, fromBytesLE, ih (v / 256) hdiv]
    omega

/-- Serializing a deserialized byte list of length `w` gives it back. -/
theorem toBytesLE_fromBytesLE : ∀ bs : List Nat, (∀ b ∈ bs, b < 256) →
    toBytesLE bs.length (fromBytesLE bs) = bs := by
  intro bs
  induction bs with
  | nil => intro _; rfl
  | cons b tl ih =>
    intro h
    have hb : b < 256 := h b (List.mem_cons_self b tl)
    have h1 : (b + 256 * fromBytesLE tl) % 256 = b := by omega
    have h2 : (b + 256 * fromBytesLE tl) / 256 = fromBytesLE tl := by omega
    rw [List.length_cons, fromBytesLE, toBytesLE, h1, h2,
      ih fun x hx => h x (List.mem_cons_of_mem b hx)]

/-- A deserialized byte list fits in its width. -/
theorem fromBytesLE_lt : ∀ bs : List Nat, (∀ b ∈ bs, b < 256) →
    fromBytesLE bs < 256 ^ bs.length := by
  intro bs
  induction bs with
  | nil =>
    intro _
    rw [fromBytesLE]
    simp
  | cons b tl ih =>
    intro h
    have hb : b < 256 := h b (List.mem_cons_self b tl)
    have htl := ih fun x hx => h x (List.mem_cons_of_mem b hx)
    rw [fromBytesLE, List.length_cons, pow_succ]
    set x := (256 : Nat) ^ tl.length with hx
    omega

/-- Unit-decoding the concatenated serializations of in-range numbers
returns exactly those numbers. -/
theorem decodeNumsAux_flatMap (w : Nat) (hw : w ≠ 0) :
    ∀ (vs : List Nat) (fuel : Nat), (∀ v ∈ vs, v < 256 ^ w) →
      (vs.flatMap (toBytesLE w)).length ≤ fuel →
      decodeNumsAux w fuel (vs.flatMap (toBytesLE w)) = some vs := by
  intro vs
  induction vs with
  | nil =>
    intro fuel _ _
    rw [List.flatMap_nil]
    cases fuel <;> rfl
  | cons v tl ih =>
    intro fuel hbound hfuel
    obtain ⟨w', rfl⟩ : ∃ w', w = w' + 1 := ⟨w - 1, by omega⟩
    rw [List.flatMap_cons] at hfuel ⊢
    have hlenv : (toBytesLE (w' + 1) v).length = w' + 1 := length_toBytesLE _ v
    have hlen : (toBytesLE (w' + 1) v ++ tl.flatMap (toBytesLE (w' + 1))).length =
        (w' + 1) + (tl.flatMap (toBytesLE (w' + 1))).length := by
      rw [List.length_append, hlenv]
    obtain ⟨fuel', rfl⟩ : ∃ f, fuel = f + 1 := ⟨fuel - 1, by omega⟩
    have htake : (toBytesLE (w' + 1) v ++ tl.flatMap (toBytesLE (w' + 1))).take (w' + 1) =
        toBytesLE (w' + 1) v := by
      exact List.take_left' hlenv
    have hdrop : (toBytesLE (w' + 1) v ++ tl.flatMap (toBytesLE (w' + 1))).drop (w' + 1) =
        tl.flatMap (toBytesLE (w' + 1)) := by
      exact List.drop_left' hlenv
    rw [toBytesLE, List.cons_append, decodeNumsAux]
    rw [if_neg (by rw [← List.cons_append, ← toBytesLE, hlen]; omega)]
    rw [← List.cons_append, ← toBytesLE, hdrop,
      ih fuel' (fun x hx => hbound x (List.mem_cons_of_mem v hx)) (by omega),
      htake, fromBytesLE_toBytesLE _ v (hbound v (List.mem_cons_self v tl))]

/-- A successful unit-decode yields in-range numbers whose re-serialization
is the original byte list. -/
theorem decodeNumsAux_sound (w : Nat) :
    ∀ (fuel : Nat) (bs vs : List Nat), (∀ b ∈ bs, b < 256) →
      decodeNumsAux w fuel bs = some vs →
      (∀ v ∈ vs, v < 256 ^ w) ∧ vs.flatMap (toBytesLE w) = bs := by
  intro fuel
  induction fuel with
  | zero =>
    intro bs vs hbytes h
    cases bs with
    | nil =>
      rw [decodeNumsAux, Option.some.injEq] at h
      subst h
      exact ⟨by simp, rfl⟩
    | cons b tl => exact absurd h (by rw [decodeNumsAux]; simp)
  | succ fuel ih =>
    intro bs vs hbytes h
    cases bs with
    | nil =>
      rw [decodeNumsAux, Option.some.injEq] at h
      subst h
      exact ⟨by simp, rfl⟩
    | cons b tl =>
      rw [decodeNumsAux] at h
      by_cases hc : w = 0 ∨ (b :: tl).length < w
      · rw [if_pos hc] at h
        exact absurd h (by simp)
      · rw [if_neg hc] at h
        push_neg at hc
        obtain ⟨hw, hlen⟩ := hc
        cases hrec : decodeNumsAux w fuel ((b :: tl).drop w) with
        | none => rw [hrec] at h; exact absurd h (by simp)
        | some vs' =>
          rw [hrec, Option.some.injEq] at h
          subst h
          have hsub : ∀ x ∈ (b :: tl).drop w, x < 256 :=
            fun x hx => hbytes x (List.drop_subset w (b :: tl) hx)
          obtain ⟨hbound', hflat'⟩ := ih ((b :: tl).drop w) vs' hsub hrec
          have htklen : ((b :: tl).take w).length = w := by
            rw [List.length_take]
            omega
          have htkbytes : ∀ x ∈ (b :: tl).take w, x < 256 :=
            fun x hx => hbytes x (List.take_subset w (b :: tl) hx)
          constructor
          · intro x hx
            rcases List.mem_cons.mp hx with hx | hx
            · subst hx
              have := fromBytesLE_lt ((b :: tl).take w) htkbytes
              rw [htklen] at this
              exact this
            · exact hbound' x hx
          · rw [List.flatMap_cons, hflat']
            have := toBytesLE_fromBytesLE ((b :: tl).take w) htkbytes
            rw [htklen] at this
            rw [this, List.take_append_drop]

/-- Every fixed width in the table is positive. -/
theorem width_pos (t : PrimType) (w : Nat) (h : PrimType.width t = some w) : 0 < w := by
  cases t <;> simp [PrimType.width] at h <;> omega

/-- Decoding the encoding of a well-formed value returns the value. -/
theorem decodePrim_encodeValue (t : PrimType) (v : FieldValue)
    (h : FieldValue.typedBy v t = true) : decodePrim t (encodeValue v) = Except.ok v := by
  cases v with
  | numeric t' vs =>
    rw [FieldValue.typedBy, Bool.and_eq_true, beq_iff_eq] at h
    obtain ⟨rfl, h2⟩ := h
    cases hw : PrimType.width t' with
    | none =>
      rw [hw] at h2
      exact absurd h2 (by simp)
    | some w =>
      rw [hw] at h2
      rw [List.all_eq_true] at h2
      have hwpos := width_pos t' w hw
      have henc : encodeValue (FieldValue.numeric t' vs) = vs.flatMap (toBytesLE w) := by
        rw [encodeValue, hw, Option.getD_some]
      rw [henc]
      simp only [decodePrim, hw]
      rw [decodeNums, decodeNumsAux_flatMap w (by omega) vs _
        (fun x hx => by simpa using h2 x hx) (Nat.le_refl _)]
  | text bs =>
    rw [FieldValue.typedBy, Bool.and_eq_true, beq_iff_eq] at h
    obtain ⟨rfl, h2⟩ := h
    rw [encodeValue]
    show Except.ok (FieldValue.text (stripNul (bs ++ [0]))) = Except.ok (FieldValue.text bs)
    rw [stripNul, List.getLast?_concat, if_pos rfl, List.dropLast_concat]
  | raw bs =>
    rw [FieldValue.typedBy, Bool.and_eq_true, beq_iff_eq] at h
    obtain ⟨rfl, h2⟩ := h
    rw [encodeValue]
    rfl

/-- Values produced by a successful decode are well-formed for the decoded
kind. -/
theorem decodePrim_typedBy (t : PrimType) (raw : List Nat) (r : FieldValue)
    (hb : ∀ b ∈ raw, b < 256) (h : decodePrim t raw = Except.ok r) :
    FieldValue.typedBy r t = true := by
  cases hw : PrimType.width t with
  | some w =>
    simp only [decodePrim, hw] at h
    cases hd : decodeNums w raw with
    | none =>
      rw [hd] at h
      exact absurd h (by simp)
    | some vs =>
      rw [hd, Except.ok.injEq] at h
      subst h
      obtain ⟨hbound, _⟩ := decodeNumsAux_sound w raw.length raw vs hb hd
      rw [FieldValue.typedBy, hw]
      simp only [beq_self_eq_true, Bool.true_and, List.all_eq_true]
      intro x hx
      simpa using hbound x hx
  | none =>
    cases t <;> simp [PrimType.width] at hw
    case ascii =>
      simp only [decodePrim, PrimType.width, Except.ok.injEq] at h
      subst h
      rw [FieldValue.typedBy]
      simp only [beq_self_eq_true, Bool.true_and, List.all_eq_true]
      intro x hx
      have hmem : x ∈ raw := by
        rw [stripNul] at hx
        split at hx
        · exact List.dropLast_subset raw hx
        · exact hx
      simpa using hb x hmem
    case undefined =>
      simp only [decodePrim, PrimType.width, Except.ok.injEq] at h
      subst h
      rw [FieldValue.typedBy]
      simp only [beq_self_eq_true, Bool.true_and, List.all_eq_true]
      intro x hx
      simpa using hb x hx

/-! ### Claim theorems -/

/-- C1 (counterexample): the claim says that for a zero denominator the
numerator/denominator accessor pair returns the original pair unchanged;
at the concrete input `1/0` the `Rational` constructor yields the Infinity
sentinel and the accessors return nothing, not the pair `(1, 0)`. -/
theorem zero_denominator_not_passed_through :
    ¬ (GenericFraction.numer (Rational.new 1 0) = some 1 ∧
       GenericFraction.denom (Rational.new 1 0) = some 0) := by
  decide

/-- C1 (amended): constructing a `Rational` or `SRational` with a zero
denominator does not crash — `new` is total — but the value is coerced to a
sentinel rather than passed through: `0/0` becomes NaN and `n/0` with
`n ≠ 0` becomes a signed Infinity, after which the canonical
numerator/denominator accessors return nothing. -/
theorem zero_denominator_sentinel :
    (∀ n : Nat,
      Rational.new n 0 =
        (if n = 0 then GenericFraction.nan else GenericFraction.infinity Sign.plus) ∧
      GenericFraction.numer (Rational.new n 0) = none ∧
      GenericFraction.denom (Rational.new n 0) = none) ∧
    (∀ z : Int,
      SRational.new z 0 =
        (if z = 0 then GenericFraction.nan
          else GenericFraction.infinity (if z < 0 then Sign.minus else Sign.plus)) ∧
      GenericFraction.numer (SRational.new z 0) = none ∧
      GenericFraction.denom (SRational.new z 0) = none) := by
  constructor
  · intro n
    by_cases h : n = 0 <;>
      simp [Rational.new, GenericFraction.numer, GenericFraction.denom, h]
  · intro z
    by_cases h : z = 0 <;>
      simp [SRational.new, GenericFraction.numer, GenericFraction.denom, h]

/-- C2: equality of `Rational`/`SRational` values follows fraction
semantics — two pairs with nonzero denominators compare equal exactly when
they cross-multiply equally, so `1/2 == 2/4` while `1/2 != 1/3`, for both
the unsigned and the signed instantiation. -/
theorem rational_equality_cross_multiplication :
    (∀ n1 d1 n2 d2 : Nat, d1 ≠ 0 → d2 ≠ 0 →
      (GenericFraction.beq (Rational.new n1 d1) (Rational.new n2 d2) = true ↔
        n1 * d2 = n2 * d1)) ∧
    GenericFraction.beq (Rational.new 1 2) (Rational.new 2 4) = true ∧
    GenericFraction.beq (Rational.new 1 2) (Rational.new 1 3) = false ∧
    GenericFraction.beq (SRational.new 1 2) (SRational.new 2 4) = true ∧
    GenericFraction.beq (SRational.new 1 2) (SRational.new 1 3) = false :=
  ⟨Rational.beq_new_iff, by decide, by decide, by decide, by decide⟩

/-- Witness for C2 at the concrete pairs `3/6` and `1/2`. -/
theorem rational_equality_cross_multiplication_witness :
    GenericFraction.beq (Rational.new 3 6) (Rational.new 1 2) = true :=
  (rational_equality_cross_multiplication.1 3 6 1 2 (by decide) (by decide)).mpr (by decide)

/-- C3: the primitive kinds have the declared widths and signedness — the
`Byte`/`Short`/`Long` carriers are the unsigned 8/16/32-bit ranges, the
`SShort`/`SLong` carriers denote, two's-complement, exactly the signed
16/32-bit integer ranges (bijectively), and `Float`/`Double` are the 32-bit
and 64-bit IEEE-754 pattern spaces. -/
theorem primitive_widths_and_signedness :
    Fintype.card Byte = 2 ^ 8 ∧ Fintype.card Short = 2 ^ 16 ∧
    Fintype.card SShort = 2 ^ 16 ∧ Fintype.card Long = 2 ^ 32 ∧
    Fintype.card SLong = 2 ^ 32 ∧ Fintype.card Float = 2 ^ 32 ∧
    Fintype.card Double = 2 ^ 64 ∧
    (∀ b : Byte, (b : Nat) < 2 ^ 8) ∧
    (∀ s : SShort, -(2 ^ 15) ≤ SShort.toInt s ∧ SShort.toInt s < 2 ^ 15) ∧
    (∀ z : Int, -(2 ^ 15) ≤ z → z < 2 ^ 15 → ∃! s : SShort, SShort.toInt s = z) ∧
    (∀ s : SLong, -(2 ^ 31) ≤ SLong.toInt s ∧ SLong.toInt s < 2 ^ 31) ∧
    (∀ z : Int, -(2 ^ 31) ≤ z → z < 2 ^ 31 → ∃! s : SLong, SLong.toInt s = z) := by
  refine ⟨Fintype.card_fin _, Fintype.card_fin _, Fintype.card_fin _, Fintype.card_fin _,
    Fintype.card_fin _, Fintype.card_fin _, Fintype.card_fin _, fun b => b.isLt,
    sshort_toInt_range, ?_, slong_toInt_range, ?_⟩
  · intro z h1 h2
    obtain ⟨s, hs⟩ := sshort_toInt_surj z h1 h2
    exact ⟨s, hs, fun t ht => sshort_toInt_inj t s (ht.trans hs.symm)⟩
  · intro z h1 h2
    obtain ⟨s, hs⟩ := slong_toInt_surj z h1 h2
    exact ⟨s, hs, fun t ht => slong_toInt_inj t s (ht.trans hs.symm)⟩

/-- Witness for C3: the signed 16-bit integer `-5` has exactly one
two's-complement `SShort` pattern. -/
theorem primitive_widths_and_signedness_witness :
    ∃! s : SShort, SShort.toInt s = -5 :=
  primitive_widths_and_signedness.2.2.2.2.2.2.2.2.2.1 (-5) (by norm_num) (by norm_num)

/-- C4: the Tag façade is a closed sum with one variant per namespace —
every namespace is realized — and two façade values are equal under the
derived equality exactly when they have the same namespace, denote the same
optional tag code, and carry equal optional payloads. -/
theorem tag_facade_equality_characterization :
    (∀ n : Namespace, ∃ t : Tag, Tag.namespaceOf t = n) ∧
    (∀ t u : Tag, Tag.beq t u = true ↔
      (Tag.namespaceOf t = Tag.namespaceOf u ∧ Tag.fieldCode t = Tag.fieldCode u ∧
        optPayloadBeq (Tag.fieldPayload t) (Tag.fieldPayload u) = true)) := by
  constructor
  · intro n
    cases n with
    | image => exact ⟨Tag.Image (Image.ProcessingSoftware ""), rfl⟩
    | photo => exact ⟨Tag.Photo, rfl⟩
    | iop => exact ⟨Tag.Iop, rfl⟩
    | gpsInfo => exact ⟨Tag.GPSInfo, rfl⟩
    | mpfInfo => exact ⟨Tag.MpfInfo, rfl⟩
    | thumbnail => exact ⟨Tag.Thumbnail, rfl⟩
  · intro t u
    cases t <;> cases u <;>
      simp [Tag.beq, Tag.namespaceOf, Tag.fieldCode, Tag.fieldPayload, optPayloadBeq,
        Image.beq]

/-- C5: tag codes are unique within the Image namespace — the 256 registry
codes are pairwise distinct, every variant's code is among them, and two
variants with the same code are the same field. -/
theorem image_tag_codes_unique :
    Image.codes.Nodup ∧
    (∀ i : Image, Image.code i ∈ Image.codes) ∧
    (∀ i j : Image, Image.code i = Image.code j → Image.fieldName i = Image.fieldName j) := by
  refine ⟨codes_nodup, code_mem_codes, ?_⟩
  intro i j h
  have hi := registry_find?_eq (Image.code i) Image.registry (Image.idx i)
    (Image.code i, Image.fieldName i, Image.primType i) codes_nodup (registry_get i) rfl
  have hj := registry_find?_eq (Image.code i) Image.registry (Image.idx j)
    (Image.code j, Image.fieldName j, Image.primType j) codes_nodup (registry_get j) h.symm
  have := hi.symm.trans hj
  rw [Option.some.injEq, Prod.mk.injEq, Prod.mk.injEq] at this
  exact this.2.1

/-- Witness for C5 at two variants with equal codes. -/
theorem image_tag_codes_unique_witness :
    Image.fieldName (Image.ProcessingSoftware "a") = Image.fieldName (Image.ProcessingSoftware "b") :=
  image_tag_codes_unique.2.2 (Image.ProcessingSoftware "a") (Image.ProcessingSoftware "b") rfl

/-- C6: the deprecated `SubfileType` field stays a defined variant with
code `0x00FF` and its declared `Short` payload, alongside its replacement
`NewSubfileType` with code `0x00FE` and `Long` payload, so every old-field
value remains representable. -/
theorem deprecated_subfile_type_preserved :
    ∀ (s : Short) (l : Long),
      Image.code (Image.SubfileType s) = 0x00FF ∧
      Image.primType (Image.SubfileType s) = PrimType.short ∧
      Image.payload (Image.SubfileType s) = PrimValue.short s ∧
      Image.code (Image.NewSubfileType l) = 0x00FE ∧
      Image.primType (Image.NewSubfileType l) = PrimType.long ∧
      (∃ i : Image, Image.code i = 0x00FF ∧ Image.payload i = PrimValue.short s) :=
  fun s _ => ⟨rfl, rfl, rfl, rfl, rfl, ⟨Image.SubfileType s, rfl, rfl⟩⟩

/-- C7: `Rational(0,0)` is constructed without error — it is the NaN
sentinel — and compares unequal, in both orders, to every fraction with a
nonzero denominator. -/
theorem rational_zero_zero_distinguishable :
    Rational.new 0 0 = GenericFraction.nan ∧
    (∀ n d : Nat, d ≠ 0 →
      GenericFraction.beq (Rational.new 0 0) (Rational.new n d) = false ∧
      GenericFraction.beq (Rational.new n d) (Rational.new 0 0) = false) := by
  refine ⟨rfl, ?_⟩
  intro n d hd
  have h00 : Rational.new 0 0 = GenericFraction.nan := rfl
  have hnd : Rational.new n d = GenericFraction.rational Sign.plus (Ratio.new n d) := by
    rw [Rational.new, if_neg hd]
  rw [h00, hnd]
  exact ⟨rfl, rfl⟩

/-- Witness for C7 at the non-degenerate fraction `1/2`. -/
theorem rational_zero_zero_distinguishable_witness :
    GenericFraction.beq (Rational.new 0 0) (Rational.new 1 2) = false ∧
    GenericFraction.beq (Rational.new 1 2) (Rational.new 0 0) = false :=
  rational_zero_zero_distinguishable.2 1 2 (by decide)

/-- C8: for every field of the registry, decoding the encoding of any
well-formed payload of the field's declared kind returns that payload, and
re-decoding the re-encoding of any successful decode returns the same
result. -/
theorem decode_encode_round_trip :
    (∀ (i : Image) (v : FieldValue), FieldValue.typedBy v (Image.primType i) = true →
      decodeField (Image.code i) (encodeValue v) = some (Except.ok v)) ∧
    (∀ (i : Image) (raw : List Nat) (r : FieldValue), (∀ b ∈ raw, b < 256) →
      decodeField (Image.code i) raw = some (Except.ok r) →
      decodeField (Image.code i) (encodeValue r) = some (Except.ok r)) := by
  constructor
  · intro i v h
    rw [decodeField, typeOfCode_code, Option.map_some', decodePrim_encodeValue _ _ h]
  · intro i raw r hb h
    rw [decodeField, typeOfCode_code, Option.map_some', Option.some.injEq] at h
    rw [decodeField, typeOfCode_code, Option.map_some',
      decodePrim_encodeValue _ _ (decodePrim_typedBy _ raw r hb h)]

/-- Witness for C8: a 4-byte `Long` value round-trips through the
`ImageWidth` field. -/
theorem decode_encode_round_trip_witness :
    decodeField (Image.code (Image.ImageWidth 0))
      (encodeValue (FieldValue.numeric PrimType.long [5])) =
      some (Except.ok (FieldValue.numeric PrimType.long [5])) :=
  decode_encode_round_trip.1 (Image.ImageWidth 0) (FieldValue.numeric PrimType.long [5])
    (by decide)

/-- C9: `Ascii` and `UTF8` are one and the same type, so every value of one
is a value of the other; the type does not restrict values to 7-bit ASCII
content, and a value need not carry the on-wire NUL terminator. -/
theorem ascii_utf8_unconstrained :
    (Ascii = UTF8) ∧
    (∃ s : Ascii, isSevenBitAscii s = false) ∧
    (∃ s : Ascii, s ≠ "" ∧ nulTerminated s = false) :=
  ⟨rfl, ⟨String.mk [Char.ofNat 233], by decide⟩,
    ⟨String.mk [Char.ofNat 65], by decide, by decide⟩⟩

/-- C10: only the `Image` variant of the façade carries a payload — every
non-Image façade value has no code and no payload, and any two façade
values of one and the same non-Image namespace are equal. -/
theorem non_image_variants_carry_no_payload :
    ∀ t u : Tag, Tag.namespaceOf t ≠ Namespace.image →
      Tag.fieldPayload t = none ∧ Tag.fieldCode t = none ∧
        (Tag.namespaceOf u = Tag.namespaceOf t → Tag.beq t u = true) := by
  intro t u hn
  cases t <;> cases u <;>
    simp_all [Tag.namespaceOf, Tag.fieldPayload, Tag.fieldCode, Tag.beq]

/-- Witness for C10 at two `Photo` façade values. -/
theorem non_image_variants_carry_no_payload_witness :
    Tag.fieldPayload Tag.Photo = none ∧ Tag.fieldCode Tag.Photo = none ∧
      (Tag.namespaceOf Tag.Photo = Tag.namespaceOf Tag.Photo → Tag.beq Tag.Photo Tag.Photo = true) :=
  non_image_variants_carry_no_payload Tag.Photo Tag.Photo (by decide)

end Exif
